import Mathlib

/-!
Verification development for the tidal-mcp repository: a shallow embedding of
`src/tidal_mcp/server.py` (session store plus the 26 catalog/library tool
wrappers) and `src/tidal_mcp/models.py` (result shapes), with theorems about
the specified behaviour.

External collaborators (the tidalapi client, the filesystem) are modelled as
an environment `Env` supplying the outcome of every external call; each tool
additionally records a trace of the external calls it performs, so that
"no remote call is made" properties are statable.
-/

namespace TidalMCP

/-- Result of a call into external code (tidalapi / filesystem): either a
normal return value or a raised exception carrying its message `str(e)`. -/
inductive Ext (α : Type) where
  | ok : α → Ext α
  | exn : String → Ext α
deriving Repr, DecidableEq

/-- Outcome of one MCP tool invocation: a structured result, a raised
`ToolError` with its message, or a non-ToolError exception escaping raw. -/
inductive Outcome (α : Type) where
  | ok : α → Outcome α
  | err : String → Outcome α
  | exn : String → Outcome α
deriving Repr, DecidableEq

/-- JSON values as they occur in the persisted session file: the file written
by `login` (server.py lines 199-207) holds an object of objects whose leaves
are strings and one boolean. `json.dumps`/`json.loads` round-trip such trees,
so the persisted file is modelled by the tree itself. -/
inductive Json where
  | str : String → Json
  | bool : Bool → Json
  | obj : List (String × Json) → Json

/-- Dictionary lookup, mirroring Python `d[key]` on a JSON object. -/
def jlookup : List (String × Json) → String → Option Json
  | [], _ => none
  | (k, v) :: rest, key => if k = key then some v else jlookup rest key

/-- Mirrors the access pattern `data[key]["data"]` used by
`ensure_authenticated` (server.py lines 134-136); any failure (value not an
object, missing key) yields `none`, corresponding to the `KeyError`/`TypeError`
that the surrounding `except` block catches. -/
def getDataField (j : Json) (key : String) : Option Json :=
  match j with
  | Json.obj fields =>
      match jlookup fields key with
      | some (Json.obj inner) => jlookup inner "data"
      | _ => none
  | _ => none

/-- The credential bundle as persisted to the session file: the five values
written by `login` (server.py lines 199-205) after Python `or`-defaulting. -/
structure CredentialBundle where
  token_type : String
  session_id : String
  access_token : String
  refresh_token : String
  is_pkce : Bool
deriving Repr, DecidableEq

/-- The `session_data` dictionary literal of server.py lines 199-205 (also
authenticate.py lines 77-83): every field wrapped as an object under the key
"data". -/
def encodeBundle (b : CredentialBundle) : Json :=
  Json.obj
    [ ("token_type", Json.obj [("data", Json.str b.token_type)])
    , ("session_id", Json.obj [("data", Json.str b.session_id)])
    , ("access_token", Json.obj [("data", Json.str b.access_token)])
    , ("refresh_token", Json.obj [("data", Json.str b.refresh_token)])
    , ("is_pkce", Json.obj [("data", Json.bool b.is_pkce)]) ]

/-- Python `value or default` on an optional string: `None` and `""` are both
falsy, so either is replaced by the default. Mirrors
`session.token_type or "Bearer"` and `session.session_id or ""`. -/
def pyStrOr (v : Option String) (d : String) : String :=
  match v with
  | none => d
  | some s => if s = "" then d else s

/-- The save step of `login`: build the persisted JSON from the live session
attributes, applying the `or`-defaults of the source for token type / session id. -/
def saveSessionData (token_type session_id : Option String)
    (access_token refresh_token : String) (is_pkce : Bool) : Json :=
  encodeBundle
    { token_type := pyStrOr token_type "Bearer"
    , session_id := pyStrOr session_id ""
    , access_token := access_token
    , refresh_token := refresh_token
    , is_pkce := is_pkce }

/-- Reading a credential bundle back out of the persisted JSON: the five
`data[key]["data"]` accesses (the schema of §6 of the spec; `ensure_authenticated`
performs the first, third and fourth of them). Fails on a missing field or a
wrongly-typed leaf. -/
def loadBundle (j : Json) : Option CredentialBundle :=
  match getDataField j "token_type", getDataField j "session_id",
        getDataField j "access_token", getDataField j "refresh_token",
        getDataField j "is_pkce" with
  | some (Json.str tt), some (Json.str sid), some (Json.str atk),
    some (Json.str rtk), some (Json.bool pk) =>
      some { token_type := tt, session_id := sid, access_token := atk,
             refresh_token := rtk, is_pkce := pk }
  | _, _, _, _, _ => none

/-- Python slicing `xs[:k]`: a nonnegative bound takes a prefix, a negative
bound drops that many elements from the end. -/
def pyTake {α : Type} (k : Int) (xs : List α) : List α :=
  if 0 ≤ k then xs.take k.toNat else xs.take (xs.length - (-k).toNat)

/-- Digit-string body of Python `int()` after the first digit: underscores are
allowed only singly and only between digits. -/
def pyIntBodyOk : List Char → Bool
  | [] => true
  | '_' :: rest =>
      match rest with
      | c :: rest2 => c.isDigit && pyIntBodyOk rest2
      | [] => false
  | c :: rest => c.isDigit && pyIntBodyOk rest

/-- Numeric value of a digit string, ignoring the underscore separators. -/
def pyDigitsVal : List Char → Nat → Nat
  | [], acc => acc
  | '_' :: rest, acc => pyDigitsVal rest acc
  | c :: rest, acc => pyDigitsVal rest (10 * acc + (c.toNat - '0'.toNat))

/-- Parse a digit body (first character must be a digit). -/
def pyParseDigits (cs : List Char) : Option Nat :=
  match cs with
  | [] => none
  | c :: rest =>
      if c.isDigit && pyIntBodyOk rest then some (pyDigitsVal cs 0) else none

/-- Strip leading and trailing whitespace from a character list (the strip
step of Python `int()`). -/
def stripChars (cs : List Char) : List Char :=
  ((cs.dropWhile Char.isWhitespace).reverse.dropWhile Char.isWhitespace).reverse

/-- Model of Python `int(s)` for base 10: strip surrounding whitespace, allow
an optional sign, then a digit string with single underscores between digits.
Returns `none` where CPython raises `ValueError`. (Non-ASCII digit forms,
which CPython would also accept, are not modelled.) -/
def pyParseInt (s : String) : Option Int :=
  match stripChars s.toList with
  | [] => none
  | '+' :: rest => (pyParseDigits rest).map (fun n => (n : Int))
  | '-' :: rest => (pyParseDigits rest).map (fun n => -(n : Int))
  | cs => (pyParseDigits cs).map (fun n => (n : Int))

/-- Message of the `ValueError` raised by Python `int()` on a bad literal. -/
def intParseErrMsg (s : String) : String :=
  "invalid literal for int() with base 10: \x27" ++ s ++ "\x27"

/-- Mirrors `[int(tid) for tid in track_ids]`: parses left to right, raising
(the message of) the first failure. -/
def pyParseIntList : List String → Ext (List Int)
  | [] => Ext.ok []
  | s :: rest =>
      match pyParseInt s with
      | none => Ext.exn (intParseErrMsg s)
      | some n =>
          match pyParseIntList rest with
          | Ext.ok ns => Ext.ok (n :: ns)
          | Ext.exn m => Ext.exn m

/-- Python truthiness of an optional list parameter: `None` and `[]` are both
falsy. Used by the `remove_tracks_from_playlist` guards. -/
def optListTruthy {α : Type} : Option (List α) → Bool
  | none => false
  | some l => !l.isEmpty

/-- Python truthiness of an optional string: `None` and `""` are falsy. -/
def optStrTruthy : Option String → Bool
  | none => false
  | some s => s ≠ ""

/-!
Remote (tidalapi) domain objects, as far as the adapter reads them. The
server only ever reads `id` and `name` unconditionally; every other upstream
field is optional. An `Option` field being `none` models the attribute being
absent or `None`, the case each projection defends against (via `if obj.attr`,
`getattr(obj, attr, default)` or `hasattr`).
-/

/-- A remote artist: the adapter reads `artist.id` and `artist.name`. -/
structure RArtist where
  id : Int
  name : String
deriving Repr, DecidableEq

/-- A remote album reference as read from `track.album` (only `.name`). -/
structure RAlbumRef where
  name : String
deriving Repr, DecidableEq

/-- A remote track. `artist`/`album` are `none` when the upstream object has
no such reference (the `if track.artist` / `if track.album` guards). -/
structure RTrack where
  id : Int
  name : String
  artist : Option RArtist
  album : Option RAlbumRef
  duration : Int
deriving Repr, DecidableEq

/-- A remote album. `release_date` is `none` when the attribute is absent or
falsy (the `hasattr ... and album.release_date` guard); `num_tracks` and
`duration` are `none` when absent (the `getattr(album, _, 0)` default). -/
structure RAlbum where
  id : Int
  name : String
  artist : Option RArtist
  release_date : Option String
  num_tracks : Option Int
  duration : Option Int
deriving Repr, DecidableEq

/-- A remote playlist creator; its `name` attribute may itself be absent
(the `getattr(playlist.creator, "name", None)` default). -/
structure RCreator where
  name : Option String
deriving Repr, DecidableEq

/-- A remote playlist. `description`/`num_tracks` `none` models the attribute
being absent or `None` (collapsed: both lead to the same projected default). -/
structure RPlaylist where
  id : String
  name : String
  description : Option String
  num_tracks : Option Int
  creator : Option RCreator
deriving Repr, DecidableEq

/-!
Output models, mirroring `src/tidal_mcp/models.py` field for field.
-/

/-- models.py `Track`. -/
structure Track where
  id : String
  title : String
  artist : String
  album : String
  duration_seconds : Int
  url : String
deriving Repr, DecidableEq

/-- models.py `Album`. -/
structure Album where
  id : String
  title : String
  artist : String
  release_date : Option String
  num_tracks : Int
  duration_seconds : Int
  url : String
deriving Repr, DecidableEq

/-- models.py `Artist`. -/
structure Artist where
  id : String
  name : String
  url : String
deriving Repr, DecidableEq

/-- models.py `Playlist`. -/
structure Playlist where
  id : String
  name : String
  description : String
  track_count : Int
  creator : Option String
  url : String
deriving Repr, DecidableEq

/-- models.py `TrackList`. -/
structure TrackList where
  status : String
  query : Option String
  count : Int
  tracks : List Track
deriving Repr, DecidableEq

/-- models.py `AlbumList`. -/
structure AlbumList where
  status : String
  query : Option String
  count : Int
  albums : List Album
deriving Repr, DecidableEq

/-- models.py `ArtistList`. -/
structure ArtistList where
  status : String
  query : Option String
  count : Int
  artists : List Artist
deriving Repr, DecidableEq

/-- models.py `PlaylistList`. -/
structure PlaylistList where
  status : String
  query : Option String
  count : Int
  playlists : List Playlist
deriving Repr, DecidableEq

/-- models.py `PlaylistTracks`. -/
structure PlaylistTracks where
  status : String
  playlist_name : String
  playlist_id : String
  count : Int
  tracks : List Track
deriving Repr, DecidableEq

/-- models.py `AlbumTracks`. -/
structure AlbumTracks where
  status : String
  album_title : String
  album_id : String
  artist : String
  count : Int
  tracks : List Track
deriving Repr, DecidableEq

/-- models.py `RadioTracks`. -/
structure RadioTracks where
  status : String
  seed_id : String
  seed_type : String
  seed_name : String
  count : Int
  tracks : List Track
deriving Repr, DecidableEq

/-- models.py `CreatePlaylistResult`. -/
structure CreatePlaylistResult where
  status : String
  playlist : Option Playlist
  message : String
deriving Repr, DecidableEq

/-- models.py `AddTracksResult`. -/
structure AddTracksResult where
  status : String
  playlist_id : String
  playlist_name : String
  tracks_added : Int
  playlist_url : String
  message : String
deriving Repr, DecidableEq

/-- models.py `RemoveTracksResult`. -/
structure RemoveTracksResult where
  status : String
  playlist_id : String
  playlist_name : String
  tracks_removed : Int
  message : String
deriving Repr, DecidableEq

/-- models.py `UpdatePlaylistResult`. -/
structure UpdatePlaylistResult where
  status : String
  playlist : Option Playlist
  message : String
deriving Repr, DecidableEq

/-- models.py `DeletePlaylistResult`. -/
structure DeletePlaylistResult where
  status : String
  playlist_id : String
  message : String
deriving Repr, DecidableEq

/-- models.py `AddToFavoritesResult`. -/
structure AddToFavoritesResult where
  status : String
  item_id : String
  item_type : String
  message : String
deriving Repr, DecidableEq

/-- models.py `RemoveFromFavoritesResult`. -/
structure RemoveFromFavoritesResult where
  status : String
  item_id : String
  item_type : String
  message : String
deriving Repr, DecidableEq

/-- models.py `ArtistDetails`. -/
structure ArtistDetails where
  status : String
  artist : Artist
  bio : Option String
deriving Repr, DecidableEq

/-- models.py `AlbumDetails`. -/
structure AlbumDetails where
  status : String
  album : Album
deriving Repr, DecidableEq

/-!
Effects: a record of every call out of the process (session-file access,
the OAuth/session endpoints, and each catalog/library endpoint of the remote
client), carrying the arguments the source passes.
-/

/-- One external call performed by a tool invocation. -/
inductive Effect where
  | fileRead
  | fileDelete
  | loadOauthSession
  | checkLogin
  | searchRemote (kind : String) (query : String) (limit : Int)
  | favoritesTracks (limit : Int)
  | favoritesAlbums (limit : Int)
  | favoritesArtists (limit : Int)
  | favAddTrack (id : Int)
  | favRemoveTrack (id : Int)
  | favRemoveAlbum (id : Int)
  | userPlaylists
  | playlistFetch (id : String)
  | playlistTracksFetch (id : String)
  | playlistCreate (name : String) (desc : String)
  | playlistAdd (id : String) (tracks : List Int)
  | playlistRemoveByIndices (id : String) (idx : List Int)
  | playlistRemoveById (id : String) (tracks : List Int)
  | playlistEdit (id : String) (name : String) (desc : Option String)
  | playlistDelete (id : String)
  | albumFetch (id : String)
  | albumTracksFetch (id : String)
  | albumSimilar (id : Int)
  | trackFetch (id : String)
  | trackRadio (id : Int) (limit : Int)
  | artistFetch (id : String)
  | artistRadio (id : Int) (limit : Int)
  | artistBio (id : Int)
  | artistAlbums (id : Int) (limit : Int)
  | artistTopTracks (id : Int) (limit : Int)
  | artistSimilar (id : Int)
deriving Repr, DecidableEq

/-- An effect is a catalog/library call when it is neither session-file access
nor part of the authentication check. -/
def Effect.isCatalog : Effect → Bool
  | Effect.fileRead => false
  | Effect.fileDelete => false
  | Effect.loadOauthSession => false
  | Effect.checkLogin => false
  | _ => true

/-- An effect is a remote call when it is not purely local file access. -/
def Effect.isRemote : Effect → Bool
  | Effect.fileRead => false
  | Effect.fileDelete => false
  | _ => true

/-- The `limit` argument carried by an effect, when it has one. -/
def Effect.limitArg : Effect → Option Int
  | Effect.searchRemote _ _ l => some l
  | Effect.favoritesTracks l => some l
  | Effect.favoritesAlbums l => some l
  | Effect.favoritesArtists l => some l
  | Effect.trackRadio _ l => some l
  | Effect.artistRadio _ l => some l
  | Effect.artistAlbums _ l => some l
  | Effect.artistTopTracks _ l => some l
  | _ => none

/-- Trace of external calls, in the order they are made. -/
abbrev Trace := List Effect

/-- The limits carried by the calls of a trace, in order. -/
def sentLimits (tr : Trace) : List Int := tr.filterMap Effect.limitArg

/-!
The environment: outcome of every external call, as a function of the
arguments the source passes. A single `Env` describes one fixed behaviour of
the filesystem and of the remote service for the duration of one tool call.
-/

/-- Behaviour of the external world during one tool invocation. Defaults make
every remote call fail, so a concrete `Env` only lists what it relies on. -/
structure Env where
  /-- The session file: `none` when absent; `some none` when present but
  `json.loads` raises; `some (some j)` when it parses to `j`. -/
  sessionFile : Option (Option Json) := none
  /-- `session.load_oauth_session(token_type, access_token, refresh_token, None)`. -/
  loadOauth : Json → Json → Json → Ext Bool := fun _ _ _ => Ext.exn "network error"
  /-- `session.check_login()`. -/
  checkLogin : Ext Bool := Ext.exn "network error"
  searchTracksR : String → Int → Ext (List RTrack) := fun _ _ => Ext.exn "network error"
  searchAlbumsR : String → Int → Ext (List RAlbum) := fun _ _ => Ext.exn "network error"
  searchArtistsR : String → Int → Ext (List RArtist) := fun _ _ => Ext.exn "network error"
  searchPlaylistsR : String → Int → Ext (List RPlaylist) := fun _ _ => Ext.exn "network error"
  favoriteTracksR : Int → Ext (List RTrack) := fun _ => Ext.exn "network error"
  favoriteAlbumsR : Int → Ext (List RAlbum) := fun _ => Ext.exn "network error"
  favoriteArtistsR : Int → Ext (List RArtist) := fun _ => Ext.exn "network error"
  favAddTrackR : Int → Ext Unit := fun _ => Ext.exn "network error"
  favRemoveTrackR : Int → Ext Unit := fun _ => Ext.exn "network error"
  favRemoveAlbumR : Int → Ext Unit := fun _ => Ext.exn "network error"
  userPlaylistsR : Ext (List RPlaylist) := Ext.exn "network error"
  playlistR : String → Ext (Option RPlaylist) := fun _ => Ext.exn "network error"
  playlistTracksR : String → Ext (List RTrack) := fun _ => Ext.exn "network error"
  createPlaylistR : String → String → Ext RPlaylist := fun _ _ => Ext.exn "network error"
  playlistAddR : String → List Int → Ext Unit := fun _ _ => Ext.exn "network error"
  playlistRemoveByIndicesR : String → List Int → Ext Unit := fun _ _ => Ext.exn "network error"
  playlistRemoveByIdR : String → List Int → Ext Unit := fun _ _ => Ext.exn "network error"
  playlistEditR : String → String → Option String → Ext Unit := fun _ _ _ => Ext.exn "network error"
  playlistDeleteR : String → Ext Unit := fun _ => Ext.exn "network error"
  albumR : String → Ext (Option RAlbum) := fun _ => Ext.exn "network error"
  albumTracksR : String → Ext (List RTrack) := fun _ => Ext.exn "network error"
  albumSimilarR : Int → Ext (List RAlbum) := fun _ => Ext.exn "network error"
  trackR : String → Ext (Option RTrack) := fun _ => Ext.exn "network error"
  trackRadioR : Int → Int → Ext (List RTrack) := fun _ _ => Ext.exn "network error"
  artistR : String → Ext (Option RArtist) := fun _ => Ext.exn "network error"
  artistRadioR : Int → Int → Ext (List RTrack) := fun _ _ => Ext.exn "network error"
  artistBioR : Int → Ext String := fun _ => Ext.exn "network error"
  artistAlbumsR : Int → Int → Ext (List RAlbum) := fun _ _ => Ext.exn "network error"
  artistTopTracksR : Int → Int → Ext (List RTrack) := fun _ _ => Ext.exn "network error"
  artistSimilarR : Int → Ext (List RArtist) := fun _ => Ext.exn "network error"

/-- server.py `ensure_authenticated` (lines 120-150). If the session file
exists: read and parse it, extract the three `data[...]["data"]` fields, load
the OAuth session, and if that reports success, `check_login`; a stale login
or any exception inside the `try` deletes the file and reports `False`. When
no file exists the function falls through to a bare `session.check_login()`
call (outside any `try`, so an exception there propagates to the caller). -/
def ensure_authenticated (env : Env) : Ext Bool × Trace :=
  match env.sessionFile with
  | some none =>
      (Ext.ok false, [Effect.fileRead, Effect.fileDelete])
  | some (some data) =>
      match getDataField data "token_type", getDataField data "access_token",
            getDataField data "refresh_token" with
      | some tt, some atk, some rtk =>
          match env.loadOauth tt atk rtk with
          | Ext.exn _ =>
              (Ext.ok false, [Effect.fileRead, Effect.loadOauthSession, Effect.fileDelete])
          | Ext.ok false =>
              (Ext.ok false, [Effect.fileRead, Effect.loadOauthSession])
          | Ext.ok true =>
              match env.checkLogin with
              | Ext.exn _ =>
                  (Ext.ok false,
                   [Effect.fileRead, Effect.loadOauthSession, Effect.checkLogin, Effect.fileDelete])
              | Ext.ok true =>
                  (Ext.ok true,
                   [Effect.fileRead, Effect.loadOauthSession, Effect.checkLogin])
              | Ext.ok false =>
                  (Ext.ok false,
                   [Effect.fileRead, Effect.loadOauthSession, Effect.checkLogin, Effect.fileDelete])
      | _, _, _ =>
          (Ext.ok false, [Effect.fileRead, Effect.fileDelete])
  | none =>
      match env.checkLogin with
      | Ext.ok b => (Ext.ok b, [Effect.checkLogin])
      | Ext.exn m => (Ext.exn m, [Effect.checkLogin])

/-- The ToolError message every tool raises when `ensure_authenticated` is
false. -/
def notAuthMsg : String := "Not authenticated. Please run the \x27login\x27 tool first."

/-- The shared prelude of every catalog/library tool:
`if not await ensure_authenticated(): raise ToolError("Not authenticated...")`.
On success the tool body runs and its external calls follow the
authentication trace; a raw exception out of `ensure_authenticated`
propagates. -/
def withAuth {α : Type} (env : Env) (body : Outcome α × Trace) : Outcome α × Trace :=
  match ensure_authenticated env with
  | (Ext.exn m, tr) => (Outcome.exn m, tr)
  | (Ext.ok false, tr) => (Outcome.err notAuthMsg, tr)
  | (Ext.ok true, tr) => (body.1, tr ++ body.2)

/-!
Projections: the per-entity record literals repeated at each call site of
server.py, factored once per distinct shape.
-/

/-- The track projection of `search_tracks`, `get_favorite_tracks`,
`get_playlist_tracks`, `get_track_radio` and `get_artist_radio`:
absent artist/album references become the fixed placeholder strings. -/
def projTrack (t : RTrack) : Track :=
  { id := toString t.id
  , title := t.name
  , artist := match t.artist with | some a => a.name | none => "Unknown Artist"
  , album := match t.album with | some a => a.name | none => "Unknown Album"
  , duration_seconds := t.duration
  , url := "https://tidal.com/browse/track/" ++ toString t.id }

/-- The track projection of `get_album_tracks`: the album name comes from the
containing album, not from the track. -/
def projTrackInAlbum (albumName : String) (t : RTrack) : Track :=
  { id := toString t.id
  , title := t.name
  , artist := match t.artist with | some a => a.name | none => "Unknown Artist"
  , album := albumName
  , duration_seconds := t.duration
  , url := "https://tidal.com/browse/track/" ++ toString t.id }

/-- The track projection of `get_artist_top_tracks`: an absent track artist
falls back to the name of the seed artist. -/
def projTrackTop (seedArtist : String) (t : RTrack) : Track :=
  { id := toString t.id
  , title := t.name
  , artist := match t.artist with | some a => a.name | none => seedArtist
  , album := match t.album with | some a => a.name | none => "Unknown Album"
  , duration_seconds := t.duration
  , url := "https://tidal.com/browse/track/" ++ toString t.id }

/-- The album projection shared by `search_albums`, `get_favorite_albums`,
`get_similar_albums`, `get_album` (fallback "Unknown Artist") and
`get_artist_albums` (fallback: seed artist name): absent numeric attributes
default to 0 via `getattr(album, _, 0)`. -/
def projAlbum (fallbackArtist : String) (a : RAlbum) : Album :=
  { id := toString a.id
  , title := a.name
  , artist := match a.artist with | some ar => ar.name | none => fallbackArtist
  , release_date := a.release_date
  , num_tracks := a.num_tracks.getD 0
  , duration_seconds := a.duration.getD 0
  , url := "https://tidal.com/browse/album/" ++ toString a.id }

/-- The artist projection of `search_artists`, `get_favorite_artists`,
`get_similar_artists` and `get_artist`. -/
def projArtist (a : RArtist) : Artist :=
  { id := toString a.id
  , name := a.name
  , url := "https://tidal.com/browse/artist/" ++ toString a.id }

/-- The playlist projection of `search_playlists`: description defaults to
`""` (via `getattr(..., "") or ""`), track count to 0, and the creator name is
probed through `playlist.creator`. -/
def projPlaylistSearch (p : RPlaylist) : Playlist :=
  { id := p.id
  , name := p.name
  , description := p.description.getD ""
  , track_count := p.num_tracks.getD 0
  , creator := match p.creator with | some c => c.name | none => none
  , url := "https://tidal.com/browse/playlist/" ++ p.id }

/-- The playlist projection of `get_user_playlists`: creator fixed to None. -/
def projPlaylistOwn (p : RPlaylist) : Playlist :=
  { id := p.id
  , name := p.name
  , description := p.description.getD ""
  , track_count := p.num_tracks.getD 0
  , creator := none
  , url := "https://tidal.com/browse/playlist/" ++ p.id }

/-!
The 26 catalog/library tools of server.py, each split into a wrapper (the
authentication prelude, argument guards and limit clamping) and a core (the
`try` body: remote calls, projection, and failure translation).
-/

/-- Body of `search_tracks` (server.py 234-269). -/
def searchTracksCore (env : Env) (query : String) (lim : Int) : Outcome TrackList × Trace :=
  match env.searchTracksR query lim with
  | Ext.ok rts =>
      (Outcome.ok { status := "success", query := some query,
                    count := ((rts.map projTrack).length : Int),
                    tracks := rts.map projTrack },
       [Effect.searchRemote "tracks" query lim])
  | Ext.exn m =>
      (Outcome.err ("Track search failed: " ++ m), [Effect.searchRemote "tracks" query lim])

/-- server.py `search_tracks`: clamp the limit to 1..50, then search. -/
def search_tracks (env : Env) (query : String) (limit : Int) : Outcome TrackList × Trace :=
  withAuth env (searchTracksCore env query (min (max 1 limit) 50))

/-- Body of `search_albums` (server.py 273-313). -/
def searchAlbumsCore (env : Env) (query : String) (lim : Int) : Outcome AlbumList × Trace :=
  match env.searchAlbumsR query lim with
  | Ext.ok rals =>
      (Outcome.ok { status := "success", query := some query,
                    count := ((rals.map (projAlbum "Unknown Artist")).length : Int),
                    albums := rals.map (projAlbum "Unknown Artist") },
       [Effect.searchRemote "albums" query lim])
  | Ext.exn m =>
      (Outcome.err ("Album search failed: " ++ m), [Effect.searchRemote "albums" query lim])

/-- server.py `search_albums`. -/
def search_albums (env : Env) (query : String) (limit : Int) : Outcome AlbumList × Trace :=
  withAuth env (searchAlbumsCore env query (min (max 1 limit) 50))

/-- Body of `search_artists` (server.py 317-349). -/
def searchArtistsCore (env : Env) (query : String) (lim : Int) : Outcome ArtistList × Trace :=
  match env.searchArtistsR query lim with
  | Ext.ok ras =>
      (Outcome.ok { status := "success", query := some query,
                    count := ((ras.map projArtist).length : Int),
                    artists := ras.map projArtist },
       [Effect.searchRemote "artists" query lim])
  | Ext.exn m =>
      (Outcome.err ("Artist search failed: " ++ m), [Effect.searchRemote "artists" query lim])

/-- server.py `search_artists`. -/
def search_artists (env : Env) (query : String) (limit : Int) : Outcome ArtistList × Trace :=
  withAuth env (searchArtistsCore env query (min (max 1 limit) 50))

/-- Body of `search_playlists` (server.py 353-392). -/
def searchPlaylistsCore (env : Env) (query : String) (lim : Int) : Outcome PlaylistList × Trace :=
  match env.searchPlaylistsR query lim with
  | Ext.ok rpls =>
      (Outcome.ok { status := "success", query := some query,
                    count := ((rpls.map projPlaylistSearch).length : Int),
                    playlists := rpls.map projPlaylistSearch },
       [Effect.searchRemote "playlists" query lim])
  | Ext.exn m =>
      (Outcome.err ("Playlist search failed: " ++ m), [Effect.searchRemote "playlists" query lim])

/-- server.py `search_playlists`. -/
def search_playlists (env : Env) (query : String) (limit : Int) : Outcome PlaylistList × Trace :=
  withAuth env (searchPlaylistsCore env query (min (max 1 limit) 50))

/-- Body of `get_favorite_tracks` (server.py 400-433): the limit is passed
through unclamped. -/
def getFavoriteTracksCore (env : Env) (limit : Int) : Outcome TrackList × Trace :=
  match env.favoriteTracksR limit with
  | Ext.ok rts =>
      (Outcome.ok { status := "success", query := none,
                    count := ((rts.map projTrack).length : Int),
                    tracks := rts.map projTrack },
       [Effect.favoritesTracks limit])
  | Ext.exn m =>
      (Outcome.err ("Failed to get favorites: " ++ m), [Effect.favoritesTracks limit])

/-- server.py `get_favorite_tracks`. -/
def get_favorite_tracks (env : Env) (limit : Int) : Outcome TrackList × Trace :=
  withAuth env (getFavoriteTracksCore env limit)

/-- Body of `add_track_to_favorites` (server.py 437-465): `int(track_id)`
first (its `ValueError` is reported as an invalid-id error), then the remote
add. -/
def addTrackToFavoritesCore (env : Env) (track_id : String) :
    Outcome AddToFavoritesResult × Trace :=
  match pyParseInt track_id with
  | none => (Outcome.err ("Invalid track ID format: " ++ track_id), [])
  | some n =>
      match env.favAddTrackR n with
      | Ext.ok _ =>
          (Outcome.ok { status := "success", item_id := track_id, item_type := "track",
                        message := "Track " ++ track_id ++ " added to favorites" },
           [Effect.favAddTrack n])
      | Ext.exn m =>
          (Outcome.err ("Failed to add track to favorites: " ++ m), [Effect.favAddTrack n])

/-- server.py `add_track_to_favorites`. -/
def add_track_to_favorites (env : Env) (track_id : String) :
    Outcome AddToFavoritesResult × Trace :=
  withAuth env (addTrackToFavoritesCore env track_id)

/-- Body of `get_user_playlists` (server.py 473-505): fetch all playlists,
then `all_playlists[:limit] if limit else all_playlists`. -/
def getUserPlaylistsCore (env : Env) (limit : Int) : Outcome PlaylistList × Trace :=
  match env.userPlaylistsR with
  | Ext.exn m => (Outcome.err ("Failed to get playlists: " ++ m), [Effect.userPlaylists])
  | Ext.ok allp =>
      (Outcome.ok { status := "success", query := none,
                    count := ((((if limit ≠ 0 then pyTake limit allp else allp)).map
                      projPlaylistOwn).length : Int),
                    playlists := ((if limit ≠ 0 then pyTake limit allp else allp)).map
                      projPlaylistOwn },
       [Effect.userPlaylists])

/-- server.py `get_user_playlists`. -/
def get_user_playlists (env : Env) (limit : Int) : Outcome PlaylistList × Trace :=
  withAuth env (getUserPlaylistsCore env limit)

/-- Body of `get_playlist_tracks` (server.py 509-554): fetch the playlist,
report not-found if falsy, fetch its tracks, then
`all_tracks[:limit] if limit else all_tracks`. -/
def getPlaylistTracksCore (env : Env) (playlist_id : String) (limit : Int) :
    Outcome PlaylistTracks × Trace :=
  match env.playlistR playlist_id with
  | Ext.exn m =>
      (Outcome.err ("Failed to get playlist tracks: " ++ m), [Effect.playlistFetch playlist_id])
  | Ext.ok none =>
      (Outcome.err ("Playlist with ID \x27" ++ playlist_id ++ "\x27 not found"),
       [Effect.playlistFetch playlist_id])
  | Ext.ok (some pl) =>
      match env.playlistTracksR playlist_id with
      | Ext.exn m =>
          (Outcome.err ("Failed to get playlist tracks: " ++ m),
           [Effect.playlistFetch playlist_id, Effect.playlistTracksFetch playlist_id])
      | Ext.ok allt =>
          (Outcome.ok { status := "success", playlist_name := pl.name,
                        playlist_id := playlist_id,
                        count := ((((if limit ≠ 0 then pyTake limit allt else allt)).map
                          projTrack).length : Int),
                        tracks := ((if limit ≠ 0 then pyTake limit allt else allt)).map
                          projTrack },
           [Effect.playlistFetch playlist_id, Effect.playlistTracksFetch playlist_id])

/-- server.py `get_playlist_tracks`. -/
def get_playlist_tracks (env : Env) (playlist_id : String) (limit : Int) :
    Outcome PlaylistTracks × Trace :=
  withAuth env (getPlaylistTracksCore env playlist_id limit)

/-- Body of `create_playlist` (server.py 558-590). -/
def createPlaylistCore (env : Env) (name description : String) :
    Outcome CreatePlaylistResult × Trace :=
  match env.createPlaylistR name description with
  | Ext.exn m =>
      (Outcome.err ("Failed to create playlist: " ++ m), [Effect.playlistCreate name description])
  | Ext.ok pl =>
      (Outcome.ok { status := "success"
                  , playlist := some { id := pl.id, name := pl.name,
                                       description := pl.description.getD "",
                                       track_count := 0, creator := none,
                                       url := "https://tidal.com/browse/playlist/" ++ pl.id }
                  , message := "Created playlist \x27" ++ name ++ "\x27" },
       [Effect.playlistCreate name description])

/-- server.py `create_playlist`. -/
def create_playlist (env : Env) (name description : String) :
    Outcome CreatePlaylistResult × Trace :=
  withAuth env (createPlaylistCore env name description)

/-- Body of `add_tracks_to_playlist` (server.py 594-629): fetch the playlist,
check not-found, parse all ids (`ValueError` → invalid-id error), then the
remote add. -/
def addTracksToPlaylistCore (env : Env) (playlist_id : String) (track_ids : List String) :
    Outcome AddTracksResult × Trace :=
  match env.playlistR playlist_id with
  | Ext.exn m =>
      (Outcome.err ("Failed to add tracks: " ++ m), [Effect.playlistFetch playlist_id])
  | Ext.ok none =>
      (Outcome.err ("Playlist with ID \x27" ++ playlist_id ++ "\x27 not found"),
       [Effect.playlistFetch playlist_id])
  | Ext.ok (some pl) =>
      match pyParseIntList track_ids with
      | Ext.exn m =>
          (Outcome.err ("Invalid track ID format: " ++ m), [Effect.playlistFetch playlist_id])
      | Ext.ok ids =>
          match env.playlistAddR playlist_id ids with
          | Ext.exn m =>
              (Outcome.err ("Failed to add tracks: " ++ m),
               [Effect.playlistFetch playlist_id, Effect.playlistAdd playlist_id ids])
          | Ext.ok _ =>
              (Outcome.ok { status := "success", playlist_id := playlist_id,
                            playlist_name := pl.name,
                            tracks_added := (track_ids.length : Int),
                            playlist_url := "https://tidal.com/browse/playlist/" ++ playlist_id,
                            message := "Added " ++ toString track_ids.length ++
                              " tracks to playlist \x27" ++ pl.name ++ "\x27" },
               [Effect.playlistFetch playlist_id, Effect.playlistAdd playlist_id ids])

/-- server.py `add_tracks_to_playlist`. -/
def add_tracks_to_playlist (env : Env) (playlist_id : String) (track_ids : List String) :
    Outcome AddTracksResult × Trace :=
  withAuth env (addTracksToPlaylistCore env playlist_id track_ids)

/-- Body of `remove_tracks_from_playlist` after its guards (server.py
657-684): fetch the playlist, then remove by indices if `indices` is truthy,
otherwise parse `track_ids` and remove by id. -/
def removeTracksCore (env : Env) (playlist_id : String)
    (track_ids : Option (List String)) (indices : Option (List Int)) :
    Outcome RemoveTracksResult × Trace :=
  match env.playlistR playlist_id with
  | Ext.exn m =>
      (Outcome.err ("Failed to remove tracks: " ++ m), [Effect.playlistFetch playlist_id])
  | Ext.ok none =>
      (Outcome.err ("Playlist with ID \x27" ++ playlist_id ++ "\x27 not found"),
       [Effect.playlistFetch playlist_id])
  | Ext.ok (some pl) =>
      if optListTruthy indices then
        match env.playlistRemoveByIndicesR playlist_id (indices.getD []) with
        | Ext.exn m =>
            (Outcome.err ("Failed to remove tracks: " ++ m),
             [Effect.playlistFetch playlist_id,
              Effect.playlistRemoveByIndices playlist_id (indices.getD [])])
        | Ext.ok _ =>
            (Outcome.ok { status := "success", playlist_id := playlist_id,
                          playlist_name := pl.name,
                          tracks_removed := ((indices.getD []).length : Int),
                          message := "Removed " ++ toString (indices.getD []).length ++
                            " tracks from playlist \x27" ++ pl.name ++ "\x27" },
             [Effect.playlistFetch playlist_id,
              Effect.playlistRemoveByIndices playlist_id (indices.getD [])])
      else
        match pyParseIntList (track_ids.getD []) with
        | Ext.exn m =>
            (Outcome.err ("Invalid ID format: " ++ m), [Effect.playlistFetch playlist_id])
        | Ext.ok ids =>
            match env.playlistRemoveByIdR playlist_id ids with
            | Ext.exn m =>
                (Outcome.err ("Failed to remove tracks: " ++ m),
                 [Effect.playlistFetch playlist_id,
                  Effect.playlistRemoveById playlist_id ids])
            | Ext.ok _ =>
                (Outcome.ok { status := "success", playlist_id := playlist_id,
                              playlist_name := pl.name,
                              tracks_removed := ((track_ids.getD []).length : Int),
                              message := "Removed " ++ toString (track_ids.getD []).length ++
                                " tracks from playlist \x27" ++ pl.name ++ "\x27" },
                 [Effect.playlistFetch playlist_id,
                  Effect.playlistRemoveById playlist_id ids])

/-- server.py `remove_tracks_from_playlist` (633-684): after the
authentication prelude, the two mutual-exclusion guards run before any remote
call; `None` and `[]` both count as "not provided" (Python truthiness). -/
def remove_tracks_from_playlist (env : Env) (playlist_id : String)
    (track_ids : Option (List String)) (indices : Option (List Int)) :
    Outcome RemoveTracksResult × Trace :=
  withAuth env
    (if !optListTruthy track_ids && !optListTruthy indices then
       (Outcome.err "Must provide either track_ids or indices to remove", [])
     else if optListTruthy track_ids && optListTruthy indices then
       (Outcome.err "Provide either track_ids or indices, not both", [])
     else removeTracksCore env playlist_id track_ids indices)

/-- Message of the `AttributeError` raised when reading `.id` off `None`. -/
def noneTypeAttrMsg (attr : String) : String :=
  "\x27NoneType\x27 object has no attribute \x27" ++ attr ++ "\x27"

/-- Body of `update_playlist` after its guard (server.py 708-737): fetch,
check not-found, edit (with the current playlist name when no new name is
given), re-fetch, and project the updated playlist. A falsy re-fetch result
makes the projection raise `AttributeError`, reported as the catch-all. -/
def updatePlaylistCore (env : Env) (playlist_id : String)
    (name description : Option String) : Outcome UpdatePlaylistResult × Trace :=
  match env.playlistR playlist_id with
  | Ext.exn m =>
      (Outcome.err ("Failed to update playlist: " ++ m), [Effect.playlistFetch playlist_id])
  | Ext.ok none =>
      (Outcome.err ("Playlist with ID \x27" ++ playlist_id ++ "\x27 not found"),
       [Effect.playlistFetch playlist_id])
  | Ext.ok (some pl) =>
      match env.playlistEditR playlist_id
              (if optStrTruthy name then name.getD "" else pl.name) description with
      | Ext.exn m =>
          (Outcome.err ("Failed to update playlist: " ++ m),
           [Effect.playlistFetch playlist_id,
            Effect.playlistEdit playlist_id
              (if optStrTruthy name then name.getD "" else pl.name) description])
      | Ext.ok _ =>
          match env.playlistR playlist_id with
          | Ext.exn m =>
              (Outcome.err ("Failed to update playlist: " ++ m),
               [Effect.playlistFetch playlist_id,
                Effect.playlistEdit playlist_id
                  (if optStrTruthy name then name.getD "" else pl.name) description,
                Effect.playlistFetch playlist_id])
          | Ext.ok none =>
              (Outcome.err ("Failed to update playlist: " ++ noneTypeAttrMsg "id"),
               [Effect.playlistFetch playlist_id,
                Effect.playlistEdit playlist_id
                  (if optStrTruthy name then name.getD "" else pl.name) description,
                Effect.playlistFetch playlist_id])
          | Ext.ok (some up) =>
              (Outcome.ok { status := "success"
                          , playlist := some { id := up.id, name := up.name,
                                               description := up.description.getD "",
                                               track_count := up.num_tracks.getD 0,
                                               creator := none,
                                               url := "https://tidal.com/browse/playlist/" ++
                                                 playlist_id }
                          , message := "Updated playlist \x27" ++ up.name ++ "\x27" },
               [Effect.playlistFetch playlist_id,
                Effect.playlistEdit playlist_id
                  (if optStrTruthy name then name.getD "" else pl.name) description,
                Effect.playlistFetch playlist_id])

/-- server.py `update_playlist` (688-737): guard
`if not name and description is None`. -/
def update_playlist (env : Env) (playlist_id : String)
    (name description : Option String) : Outcome UpdatePlaylistResult × Trace :=
  withAuth env
    (if !optStrTruthy name && description = none then
       (Outcome.err "Must provide at least name or description to update", [])
     else updatePlaylistCore env playlist_id name description)

/-- Body of `delete_playlist` (server.py 741-770). -/
def deletePlaylistCore (env : Env) (playlist_id : String) :
    Outcome DeletePlaylistResult × Trace :=
  match env.playlistR playlist_id with
  | Ext.exn m =>
      (Outcome.err ("Failed to delete playlist: " ++ m), [Effect.playlistFetch playlist_id])
  | Ext.ok none =>
      (Outcome.err ("Playlist with ID \x27" ++ playlist_id ++ "\x27 not found"),
       [Effect.playlistFetch playlist_id])
  | Ext.ok (some pl) =>
      match env.playlistDeleteR playlist_id with
      | Ext.exn m =>
          (Outcome.err ("Failed to delete playlist: " ++ m),
           [Effect.playlistFetch playlist_id, Effect.playlistDelete playlist_id])
      | Ext.ok _ =>
          (Outcome.ok { status := "success", playlist_id := playlist_id,
                        message := "Deleted playlist \x27" ++ pl.name ++ "\x27" },
           [Effect.playlistFetch playlist_id, Effect.playlistDelete playlist_id])

/-- server.py `delete_playlist`. -/
def delete_playlist (env : Env) (playlist_id : String) :
    Outcome DeletePlaylistResult × Trace :=
  withAuth env (deletePlaylistCore env playlist_id)

/-- Body of `get_album_tracks` (server.py 778-822). -/
def getAlbumTracksCore (env : Env) (album_id : String) : Outcome AlbumTracks × Trace :=
  match env.albumR album_id with
  | Ext.exn m =>
      (Outcome.err ("Failed to get album tracks: " ++ m), [Effect.albumFetch album_id])
  | Ext.ok none =>
      (Outcome.err ("Album with ID \x27" ++ album_id ++ "\x27 not found"),
       [Effect.albumFetch album_id])
  | Ext.ok (some al) =>
      match env.albumTracksR album_id with
      | Ext.exn m =>
          (Outcome.err ("Failed to get album tracks: " ++ m),
           [Effect.albumFetch album_id, Effect.albumTracksFetch album_id])
      | Ext.ok ts =>
          (Outcome.ok { status := "success", album_title := al.name, album_id := album_id,
                        artist := match al.artist with
                                  | some ar => ar.name
                                  | none => "Unknown Artist",
                        count := ((ts.map (projTrackInAlbum al.name)).length : Int),
                        tracks := ts.map (projTrackInAlbum al.name) },
           [Effect.albumFetch album_id, Effect.albumTracksFetch album_id])

/-- server.py `get_album_tracks`. -/
def get_album_tracks (env : Env) (album_id : String) : Outcome AlbumTracks × Trace :=
  withAuth env (getAlbumTracksCore env album_id)

/-- Body of `get_track_radio` (server.py 830-886): fetch the seed track,
check not-found, then its radio with the clamped limit. -/
def getTrackRadioCore (env : Env) (track_id : String) (lim : Int) :
    Outcome RadioTracks × Trace :=
  match env.trackR track_id with
  | Ext.exn m =>
      (Outcome.err ("Failed to get track radio: " ++ m), [Effect.trackFetch track_id])
  | Ext.ok none =>
      (Outcome.err ("Track with ID \x27" ++ track_id ++ "\x27 not found"),
       [Effect.trackFetch track_id])
  | Ext.ok (some t) =>
      match env.trackRadioR t.id lim with
      | Ext.exn m =>
          (Outcome.err ("Failed to get track radio: " ++ m),
           [Effect.trackFetch track_id, Effect.trackRadio t.id lim])
      | Ext.ok rts =>
          (Outcome.ok { status := "success", seed_id := track_id, seed_type := "track",
                        seed_name := t.name ++ " by " ++
                          (match t.artist with
                           | some a => a.name
                           | none => "Unknown Artist"),
                        count := ((rts.map projTrack).length : Int),
                        tracks := rts.map projTrack },
           [Effect.trackFetch track_id, Effect.trackRadio t.id lim])

/-- server.py `get_track_radio`: limit clamped to 1..100. -/
def get_track_radio (env : Env) (track_id : String) (limit : Int) :
    Outcome RadioTracks × Trace :=
  withAuth env (getTrackRadioCore env track_id (min (max 1 limit) 100))

/-- Body of `get_artist_radio` (server.py 890-944). -/
def getArtistRadioCore (env : Env) (artist_id : String) (lim : Int) :
    Outcome RadioTracks × Trace :=
  match env.artistR artist_id with
  | Ext.exn m =>
      (Outcome.err ("Failed to get artist radio: " ++ m), [Effect.artistFetch artist_id])
  | Ext.ok none =>
      (Outcome.err ("Artist with ID \x27" ++ artist_id ++ "\x27 not found"),
       [Effect.artistFetch artist_id])
  | Ext.ok (some a) =>
      match env.artistRadioR a.id lim with
      | Ext.exn m =>
          (Outcome.err ("Failed to get artist radio: " ++ m),
           [Effect.artistFetch artist_id, Effect.artistRadio a.id lim])
      | Ext.ok rts =>
          (Outcome.ok { status := "success", seed_id := artist_id, seed_type := "artist",
                        seed_name := a.name,
                        count := ((rts.map projTrack).length : Int),
                        tracks := rts.map projTrack },
           [Effect.artistFetch artist_id, Effect.artistRadio a.id lim])

/-- server.py `get_artist_radio`: limit clamped to 1..100. -/
def get_artist_radio (env : Env) (artist_id : String) (limit : Int) :
    Outcome RadioTracks × Trace :=
  withAuth env (getArtistRadioCore env artist_id (min (max 1 limit) 100))

/-- Body of `get_artist` (server.py 952-989): the biography fetch is wrapped
in its own try, a failure leaving the bio as None. -/
def getArtistCore (env : Env) (artist_id : String) : Outcome ArtistDetails × Trace :=
  match env.artistR artist_id with
  | Ext.exn m =>
      (Outcome.err ("Failed to get artist: " ++ m), [Effect.artistFetch artist_id])
  | Ext.ok none =>
      (Outcome.err ("Artist with ID \x27" ++ artist_id ++ "\x27 not found"),
       [Effect.artistFetch artist_id])
  | Ext.ok (some a) =>
      (Outcome.ok { status := "success", artist := projArtist a,
                    bio := match env.artistBioR a.id with
                           | Ext.ok b => some b
                           | Ext.exn _ => none },
       [Effect.artistFetch artist_id, Effect.artistBio a.id])

/-- server.py `get_artist`. -/
def get_artist (env : Env) (artist_id : String) : Outcome ArtistDetails × Trace :=
  withAuth env (getArtistCore env artist_id)

/-- Body of `get_artist_albums` (server.py 993-1044): an absent album artist
falls back to the name of the seed artist. -/
def getArtistAlbumsCore (env : Env) (artist_id : String) (lim : Int) :
    Outcome AlbumList × Trace :=
  match env.artistR artist_id with
  | Ext.exn m =>
      (Outcome.err ("Failed to get artist albums: " ++ m), [Effect.artistFetch artist_id])
  | Ext.ok none =>
      (Outcome.err ("Artist with ID \x27" ++ artist_id ++ "\x27 not found"),
       [Effect.artistFetch artist_id])
  | Ext.ok (some a) =>
      match env.artistAlbumsR a.id lim with
      | Ext.exn m =>
          (Outcome.err ("Failed to get artist albums: " ++ m),
           [Effect.artistFetch artist_id, Effect.artistAlbums a.id lim])
      | Ext.ok als =>
          (Outcome.ok { status := "success", query := none,
                        count := ((als.map (projAlbum a.name)).length : Int),
                        albums := als.map (projAlbum a.name) },
           [Effect.artistFetch artist_id, Effect.artistAlbums a.id lim])

/-- server.py `get_artist_albums`: limit clamped to 1..50. -/
def get_artist_albums (env : Env) (artist_id : String) (limit : Int) :
    Outcome AlbumList × Trace :=
  withAuth env (getArtistAlbumsCore env artist_id (min (max 1 limit) 50))

/-- Body of `get_artist_top_tracks` (server.py 1048-1094). -/
def getArtistTopTracksCore (env : Env) (artist_id : String) (lim : Int) :
    Outcome TrackList × Trace :=
  match env.artistR artist_id with
  | Ext.exn m =>
      (Outcome.err ("Failed to get artist top tracks: " ++ m), [Effect.artistFetch artist_id])
  | Ext.ok none =>
      (Outcome.err ("Artist with ID \x27" ++ artist_id ++ "\x27 not found"),
       [Effect.artistFetch artist_id])
  | Ext.ok (some a) =>
      match env.artistTopTracksR a.id lim with
      | Ext.exn m =>
          (Outcome.err ("Failed to get artist top tracks: " ++ m),
           [Effect.artistFetch artist_id, Effect.artistTopTracks a.id lim])
      | Ext.ok ts =>
          (Outcome.ok { status := "success", query := none,
                        count := ((ts.map (projTrackTop a.name)).length : Int),
                        tracks := ts.map (projTrackTop a.name) },
           [Effect.artistFetch artist_id, Effect.artistTopTracks a.id lim])

/-- server.py `get_artist_top_tracks`: limit clamped to 1..50. -/
def get_artist_top_tracks (env : Env) (artist_id : String) (limit : Int) :
    Outcome TrackList × Trace :=
  withAuth env (getArtistTopTracksCore env artist_id (min (max 1 limit) 50))

/-- Body of `get_similar_artists` (server.py 1098-1140): the remote call takes
no limit; the clamped limit is applied locally via
`similar[:limit] if similar else []`. -/
def getSimilarArtistsCore (env : Env) (artist_id : String) (lim : Int) :
    Outcome ArtistList × Trace :=
  match env.artistR artist_id with
  | Ext.exn m =>
      (Outcome.err ("Failed to get similar artists: " ++ m), [Effect.artistFetch artist_id])
  | Ext.ok none =>
      (Outcome.err ("Artist with ID \x27" ++ artist_id ++ "\x27 not found"),
       [Effect.artistFetch artist_id])
  | Ext.ok (some a) =>
      match env.artistSimilarR a.id with
      | Ext.exn m =>
          (Outcome.err ("Failed to get similar artists: " ++ m),
           [Effect.artistFetch artist_id, Effect.artistSimilar a.id])
      | Ext.ok sims =>
          (Outcome.ok { status := "success", query := none,
                        count := ((((if !sims.isEmpty then pyTake lim sims else [])).map
                          projArtist).length : Int),
                        artists := ((if !sims.isEmpty then pyTake lim sims else [])).map
                          projArtist },
           [Effect.artistFetch artist_id, Effect.artistSimilar a.id])

/-- server.py `get_similar_artists`: limit clamped to 1..50. -/
def get_similar_artists (env : Env) (artist_id : String) (limit : Int) :
    Outcome ArtistList × Trace :=
  withAuth env (getSimilarArtistsCore env artist_id (min (max 1 limit) 50))

/-- Body of `get_favorite_albums` (server.py 1148-1186): limit unclamped. -/
def getFavoriteAlbumsCore (env : Env) (limit : Int) : Outcome AlbumList × Trace :=
  match env.favoriteAlbumsR limit with
  | Ext.ok rals =>
      (Outcome.ok { status := "success", query := none,
                    count := ((rals.map (projAlbum "Unknown Artist")).length : Int),
                    albums := rals.map (projAlbum "Unknown Artist") },
       [Effect.favoritesAlbums limit])
  | Ext.exn m =>
      (Outcome.err ("Failed to get favorite albums: " ++ m), [Effect.favoritesAlbums limit])

/-- server.py `get_favorite_albums`. -/
def get_favorite_albums (env : Env) (limit : Int) : Outcome AlbumList × Trace :=
  withAuth env (getFavoriteAlbumsCore env limit)

/-- Body of `get_favorite_artists` (server.py 1190-1220): limit unclamped. -/
def getFavoriteArtistsCore (env : Env) (limit : Int) : Outcome ArtistList × Trace :=
  match env.favoriteArtistsR limit with
  | Ext.ok ras =>
      (Outcome.ok { status := "success", query := none,
                    count := ((ras.map projArtist).length : Int),
                    artists := ras.map projArtist },
       [Effect.favoritesArtists limit])
  | Ext.exn m =>
      (Outcome.err ("Failed to get favorite artists: " ++ m), [Effect.favoritesArtists limit])

/-- server.py `get_favorite_artists`. -/
def get_favorite_artists (env : Env) (limit : Int) : Outcome ArtistList × Trace :=
  withAuth env (getFavoriteArtistsCore env limit)

/-- Body of `remove_track_from_favorites` (server.py 1224-1252). -/
def removeTrackFromFavoritesCore (env : Env) (track_id : String) :
    Outcome RemoveFromFavoritesResult × Trace :=
  match pyParseInt track_id with
  | none => (Outcome.err ("Invalid track ID format: " ++ track_id), [])
  | some n =>
      match env.favRemoveTrackR n with
      | Ext.ok _ =>
          (Outcome.ok { status := "success", item_id := track_id, item_type := "track",
                        message := "Track " ++ track_id ++ " removed from favorites" },
           [Effect.favRemoveTrack n])
      | Ext.exn m =>
          (Outcome.err ("Failed to remove track from favorites: " ++ m),
           [Effect.favRemoveTrack n])

/-- server.py `remove_track_from_favorites`. -/
def remove_track_from_favorites (env : Env) (track_id : String) :
    Outcome RemoveFromFavoritesResult × Trace :=
  withAuth env (removeTrackFromFavoritesCore env track_id)

/-- Body of `remove_album_from_favorites` (server.py 1256-1284). -/
def removeAlbumFromFavoritesCore (env : Env) (album_id : String) :
    Outcome RemoveFromFavoritesResult × Trace :=
  match pyParseInt album_id with
  | none => (Outcome.err ("Invalid album ID format: " ++ album_id), [])
  | some n =>
      match env.favRemoveAlbumR n with
      | Ext.ok _ =>
          (Outcome.ok { status := "success", item_id := album_id, item_type := "album",
                        message := "Album " ++ album_id ++ " removed from favorites" },
           [Effect.favRemoveAlbum n])
      | Ext.exn m =>
          (Outcome.err ("Failed to remove album from favorites: " ++ m),
           [Effect.favRemoveAlbum n])

/-- server.py `remove_album_from_favorites`. -/
def remove_album_from_favorites (env : Env) (album_id : String) :
    Outcome RemoveFromFavoritesResult × Trace :=
  withAuth env (removeAlbumFromFavoritesCore env album_id)

/-- Body of `get_album` (server.py 1292-1329). -/
def getAlbumCore (env : Env) (album_id : String) : Outcome AlbumDetails × Trace :=
  match env.albumR album_id with
  | Ext.exn m =>
      (Outcome.err ("Failed to get album: " ++ m), [Effect.albumFetch album_id])
  | Ext.ok none =>
      (Outcome.err ("Album with ID \x27" ++ album_id ++ "\x27 not found"),
       [Effect.albumFetch album_id])
  | Ext.ok (some al) =>
      (Outcome.ok { status := "success", album := projAlbum "Unknown Artist" al },
       [Effect.albumFetch album_id])

/-- server.py `get_album`. -/
def get_album (env : Env) (album_id : String) : Outcome AlbumDetails × Trace :=
  withAuth env (getAlbumCore env album_id)

/-- Body of `get_similar_albums` (server.py 1333-1383): the remote call takes
no limit; the clamped limit is applied locally via
`similar[:limit] if similar else []`. -/
def getSimilarAlbumsCore (env : Env) (album_id : String) (lim : Int) :
    Outcome AlbumList × Trace :=
  match env.albumR album_id with
  | Ext.exn m =>
      (Outcome.err ("Failed to get similar albums: " ++ m), [Effect.albumFetch album_id])
  | Ext.ok none =>
      (Outcome.err ("Album with ID \x27" ++ album_id ++ "\x27 not found"),
       [Effect.albumFetch album_id])
  | Ext.ok (some al) =>
      match env.albumSimilarR al.id with
      | Ext.exn m =>
          (Outcome.err ("Failed to get similar albums: " ++ m),
           [Effect.albumFetch album_id, Effect.albumSimilar al.id])
      | Ext.ok sims =>
          (Outcome.ok { status := "success", query := none,
                        count := ((((if !sims.isEmpty then pyTake lim sims else [])).map
                          (projAlbum "Unknown Artist")).length : Int),
                        albums := ((if !sims.isEmpty then pyTake lim sims else [])).map
                          (projAlbum "Unknown Artist") },
           [Effect.albumFetch album_id, Effect.albumSimilar al.id])

/-- server.py `get_similar_albums`: limit clamped to 1..50. -/
def get_similar_albums (env : Env) (album_id : String) (limit : Int) :
    Outcome AlbumList × Trace :=
  withAuth env (getSimilarAlbumsCore env album_id (min (max 1 limit) 50))

/-!
Concrete environments and sample data for evaluating the theorems.
-/

/-- A fresh environment: no session file and no OAuth completed in-process,
so the login check reports False. All catalog endpoints are irrelevant. -/
def envFresh : Env := { sessionFile := none, checkLogin := Ext.ok false }

/-- A sample remote artist. -/
def sampleArtist : RArtist := { id := 7, name := "Artist A" }

/-- A sample remote track with all references present. -/
def sampleTrack : RTrack :=
  { id := 11, name := "Song", artist := some sampleArtist,
    album := some { name := "Album A" }, duration := 200 }

/-- A sample remote album with all attributes present. -/
def sampleAlbum : RAlbum :=
  { id := 21, name := "Album A", artist := some sampleArtist,
    release_date := some "2020-01-01", num_tracks := some 10, duration := some 2400 }

/-- A sample remote playlist. -/
def samplePlaylist : RPlaylist :=
  { id := "pl-1", name := "My List", description := some "desc",
    num_tracks := some 2, creator := some { name := some "User" } }

/-- A remote track with no artist and no album reference. -/
def bareTrack : RTrack :=
  { id := 5, name := "T", artist := none, album := none, duration := 100 }

/-- A remote album with every optional attribute absent. -/
def bareAlbum : RAlbum :=
  { id := 6, name := "A", artist := none, release_date := none,
    num_tracks := none, duration := none }

/-- A sample persisted credential bundle. -/
def sampleBundle : CredentialBundle :=
  { token_type := "Bearer", session_id := "sid-1", access_token := "acc-1",
    refresh_token := "ref-1", is_pkce := false }

/-- An authenticated environment (prior in-process OAuth, so no session file
and a True login check) in which every catalog call succeeds with sample
data. -/
def envAuthed : Env :=
  { sessionFile := none
  , checkLogin := Ext.ok true
  , searchTracksR := fun _ _ => Ext.ok [sampleTrack]
  , searchAlbumsR := fun _ _ => Ext.ok [sampleAlbum]
  , searchArtistsR := fun _ _ => Ext.ok [sampleArtist]
  , searchPlaylistsR := fun _ _ => Ext.ok [samplePlaylist]
  , favoriteTracksR := fun _ => Ext.ok [sampleTrack]
  , favoriteAlbumsR := fun _ => Ext.ok [sampleAlbum]
  , favoriteArtistsR := fun _ => Ext.ok [sampleArtist]
  , favAddTrackR := fun _ => Ext.ok ()
  , favRemoveTrackR := fun _ => Ext.ok ()
  , favRemoveAlbumR := fun _ => Ext.ok ()
  , userPlaylistsR := Ext.ok [samplePlaylist]
  , playlistR := fun _ => Ext.ok (some samplePlaylist)
  , playlistTracksR := fun _ => Ext.ok [sampleTrack]
  , createPlaylistR := fun _ _ => Ext.ok samplePlaylist
  , playlistAddR := fun _ _ => Ext.ok ()
  , playlistRemoveByIndicesR := fun _ _ => Ext.ok ()
  , playlistRemoveByIdR := fun _ _ => Ext.ok ()
  , playlistEditR := fun _ _ _ => Ext.ok ()
  , playlistDeleteR := fun _ => Ext.ok ()
  , albumR := fun _ => Ext.ok (some sampleAlbum)
  , albumTracksR := fun _ => Ext.ok [sampleTrack]
  , albumSimilarR := fun _ => Ext.ok [sampleAlbum]
  , trackR := fun _ => Ext.ok (some sampleTrack)
  , trackRadioR := fun _ _ => Ext.ok [sampleTrack]
  , artistR := fun _ => Ext.ok (some sampleArtist)
  , artistRadioR := fun _ _ => Ext.ok [sampleTrack]
  , artistBioR := fun _ => Ext.ok "Bio"
  , artistAlbumsR := fun _ _ => Ext.ok [sampleAlbum]
  , artistTopTracksR := fun _ _ => Ext.ok [sampleTrack]
  , artistSimilarR := fun _ => Ext.ok [sampleArtist] }

/-- An environment whose session file exists but does not parse. -/
def envBadFile : Env := { sessionFile := some none }

/-- An environment with a well-formed session file whose credentials load but
fail the remote validity check (a stale/revoked token). -/
def envStale : Env :=
  { sessionFile := some (some (encodeBundle sampleBundle))
  , loadOauth := fun _ _ _ => Ext.ok true
  , checkLogin := Ext.ok false }

/-!
Helper lemmas about the authentication prelude.
-/

/-- When the validity check reports False, `withAuth` raises the
Authentication-Required ToolError and performs nothing beyond the check. -/
theorem withAuth_eq_false {α : Type} (env : Env) (b : Outcome α × Trace)
    (h : (ensure_authenticated env).1 = Ext.ok false) :
    withAuth env b = (Outcome.err notAuthMsg, (ensure_authenticated env).2) := by
  unfold withAuth
  rcases hE : ensure_authenticated env with ⟨r, tr⟩
  rw [hE] at h
  simp only at h
  subst h
  rfl

/-- When the validity check reports True, `withAuth` runs the body after the
authentication trace. -/
theorem withAuth_eq_true {α : Type} (env : Env) (b : Outcome α × Trace)
    (h : (ensure_authenticated env).1 = Ext.ok true) :
    withAuth env b = (b.1, (ensure_authenticated env).2 ++ b.2) := by
  unfold withAuth
  rcases hE : ensure_authenticated env with ⟨r, tr⟩
  rw [hE] at h
  simp only at h
  subst h
  rfl

/-- A structured success can only come out of the body. -/
theorem withAuth_fst_ok {α : Type} {env : Env} {b : Outcome α × Trace} {r : α}
    (h : (withAuth env b).1 = Outcome.ok r) : b.1 = Outcome.ok r := by
  unfold withAuth at h
  rcases hE : ensure_authenticated env with ⟨ra, tr⟩
  rw [hE] at h
  rcases ra with rb | m
  · cases rb
    · simp at h
    · simpa using h
  · simp at h

/-- The trace of a guarded tool either stops at the authentication trace or
extends it with the calls of the body. -/
theorem withAuth_snd_cases {α : Type} (env : Env) (b : Outcome α × Trace) :
    (withAuth env b).2 = (ensure_authenticated env).2 ∨
    (withAuth env b).2 = (ensure_authenticated env).2 ++ b.2 := by
  unfold withAuth
  rcases hE : ensure_authenticated env with ⟨ra, tr⟩
  rcases ra with rb | m
  · cases rb
    · left; rfl
    · right; rfl
  · left; rfl

/-- The authentication check never performs a catalog/library call. -/
theorem auth_trace_catalogFree (env : Env) :
    (ensure_authenticated env).2.all (fun e => !e.isCatalog) = true := by
  unfold ensure_authenticated
  repeat' split
  all_goals rfl

/-- Propositional form of `auth_trace_catalogFree`. -/
theorem auth_trace_noCatalog (env : Env) :
    ∀ e ∈ (ensure_authenticated env).2, e.isCatalog = false := by
  intro e he
  have h := List.all_eq_true.mp (auth_trace_catalogFree env) e he
  simpa using h

/-- The authentication check passes no limit argument anywhere. -/
theorem auth_trace_sentLimits (env : Env) :
    sentLimits (ensure_authenticated env).2 = [] := by
  unfold ensure_authenticated
  repeat' split
  all_goals rfl

/-- Limits sent by a guarded tool all come from the body. -/
theorem withAuth_sentLimits {α : Type} {v : Int} (env : Env) (b : Outcome α × Trace)
    (hb : ∀ x ∈ sentLimits b.2, x = v) :
    ∀ x ∈ sentLimits (withAuth env b).2, x = v := by
  intro x hx
  rcases withAuth_snd_cases env b with hc | hc <;> rw [hc] at hx
  · rw [auth_trace_sentLimits env] at hx
    simp at hx
  · unfold sentLimits at hx
    rw [List.filterMap_append] at hx
    rcases List.mem_append.mp hx with h1 | h2
    · have h0 := auth_trace_sentLimits env
      unfold sentLimits at h0
      rw [h0] at h1
      simp at h1
    · exact hb x h2

/-- In a fresh environment (no session file, login check False) every guarded
tool stops with the Authentication-Required error after the sole login-check
call. -/
theorem withAuth_eq_of_fresh {α : Type} {env : Env} (b : Outcome α × Trace)
    (hf : env.sessionFile = none) (hc : env.checkLogin = Ext.ok false) :
    withAuth env b = (Outcome.err notAuthMsg, [Effect.checkLogin]) := by
  have hE : ensure_authenticated env = (Ext.ok false, [Effect.checkLogin]) := by
    simp only [ensure_authenticated, hf, hc]
  have h1 : (ensure_authenticated env).1 = Ext.ok false := by rw [hE]
  have h2 := withAuth_eq_false env b h1
  rw [hE] at h2
  exact h2

/-- C1: every catalog/library tool (all 26 of them) performs the
session-validity check `ensure_authenticated` at the start of the same call;
the check itself makes no catalog call, and whenever it reports False the
tool raises the Authentication-Required ToolError with its trace stopping at
the authentication trace, so nothing is delegated to the remote catalog
client. -/
theorem c1_auth_gate (env : Env) (h : (ensure_authenticated env).1 = Ext.ok false) :
    (∀ e ∈ (ensure_authenticated env).2, e.isCatalog = false) ∧
    (∀ q l, search_tracks env q l = (Outcome.err notAuthMsg, (ensure_authenticated env).2)) ∧
    (∀ q l, search_albums env q l = (Outcome.err notAuthMsg, (ensure_authenticated env).2)) ∧
    (∀ q l, search_artists env q l = (Outcome.err notAuthMsg, (ensure_authenticated env).2)) ∧
    (∀ q l, search_playlists env q l = (Outcome.err notAuthMsg, (ensure_authenticated env).2)) ∧
    (∀ l, get_favorite_tracks env l = (Outcome.err notAuthMsg, (ensure_authenticated env).2)) ∧
    (∀ tid, add_track_to_favorites env tid =
      (Outcome.err notAuthMsg, (ensure_authenticated env).2)) ∧
    (∀ l, get_user_playlists env l = (Outcome.err notAuthMsg, (ensure_authenticated env).2)) ∧
    (∀ pid l, get_playlist_tracks env pid l =
      (Outcome.err notAuthMsg, (ensure_authenticated env).2)) ∧
    (∀ n d, create_playlist env n d = (Outcome.err notAuthMsg, (ensure_authenticated env).2)) ∧
    (∀ pid tids, add_tracks_to_playlist env pid tids =
      (Outcome.err notAuthMsg, (ensure_authenticated env).2)) ∧
    (∀ pid tids idx, remove_tracks_from_playlist env pid tids idx =
      (Outcome.err notAuthMsg, (ensure_authenticated env).2)) ∧
    (∀ pid n d, update_playlist env pid n d =
      (Outcome.err notAuthMsg, (ensure_authenticated env).2)) ∧
    (∀ pid, delete_playlist env pid = (Outcome.err notAuthMsg, (ensure_authenticated env).2)) ∧
    (∀ aid, get_album_tracks env aid = (Outcome.err notAuthMsg, (ensure_authenticated env).2)) ∧
    (∀ tid l, get_track_radio env tid l =
      (Outcome.err notAuthMsg, (ensure_authenticated env).2)) ∧
    (∀ aid l, get_artist_radio env aid l =
      (Outcome.err notAuthMsg, (ensure_authenticated env).2)) ∧
    (∀ aid, get_artist env aid = (Outcome.err notAuthMsg, (ensure_authenticated env).2)) ∧
    (∀ aid l, get_artist_albums env aid l =
      (Outcome.err notAuthMsg, (ensure_authenticated env).2)) ∧
    (∀ aid l, get_artist_top_tracks env aid l =
      (Outcome.err notAuthMsg, (ensure_authenticated env).2)) ∧
    (∀ aid l, get_similar_artists env aid l =
      (Outcome.err notAuthMsg, (ensure_authenticated env).2)) ∧
    (∀ l, get_favorite_albums env l = (Outcome.err notAuthMsg, (ensure_authenticated env).2)) ∧
    (∀ l, get_favorite_artists env l = (Outcome.err notAuthMsg, (ensure_authenticated env).2)) ∧
    (∀ tid, remove_track_from_favorites env tid =
      (Outcome.err notAuthMsg, (ensure_authenticated env).2)) ∧
    (∀ aid, remove_album_from_favorites env aid =
      (Outcome.err notAuthMsg, (ensure_authenticated env).2)) ∧
    (∀ aid, get_album env aid = (Outcome.err notAuthMsg, (ensure_authenticated env).2)) ∧
    (∀ aid l, get_similar_albums env aid l =
      (Outcome.err notAuthMsg, (ensure_authenticated env).2)) := by
  refine ⟨auth_trace_noCatalog env, ?_, ?_, ?_, ?_, ?_, ?_, ?_, ?_, ?_, ?_, ?_, ?_, ?_,
    ?_, ?_, ?_, ?_, ?_, ?_, ?_, ?_, ?_, ?_, ?_, ?_, ?_⟩
  all_goals intros
  all_goals exact withAuth_eq_false env _ h

/-- C1 witness: in the fresh environment, the check is False and two sample
tools stop with the Authentication-Required error and no catalog call. -/
theorem c1_auth_gate_witness :
    (ensure_authenticated envFresh).1 = Ext.ok false ∧
    search_tracks envFresh "test" 5 = (Outcome.err notAuthMsg, [Effect.checkLogin]) ∧
    delete_playlist envFresh "pl-1" = (Outcome.err notAuthMsg, [Effect.checkLogin]) := by
  refine ⟨rfl, ?_, ?_⟩
  · exact (c1_auth_gate envFresh rfl).2.1 "test" 5
  · exact (c1_auth_gate envFresh rfl).2.2.2.2.2.2.2.2.2.2.2.2.2.1 "pl-1"

/-- C2 counterexample: with no persisted session file and no prior OAuth
completion, an authenticated operation does fail with Authentication-Required,
but a remote call is performed before that failure: the validity check itself
calls the remote login-check endpoint, so the trace of remote calls is not
empty as the claim states. -/
theorem c2_counterexample :
    envFresh.sessionFile = none ∧
    (get_track_radio envFresh "1" 20).1 = Outcome.err notAuthMsg ∧
    ¬((get_track_radio envFresh "1" 20).2.filter Effect.isRemote = []) := by
  refine ⟨rfl, rfl, ?_⟩
  have h : (get_track_radio envFresh "1" 20).2.filter Effect.isRemote =
      [Effect.checkLogin] := rfl
  rw [h]
  simp

/-- C2 (amended): with no persisted session file and no prior OAuth
completion, every authenticated operation fails with Authentication-Required,
and the only external call performed before that failure is the session
login-check itself - no catalog/library call is made. -/
theorem c2_fresh_env (env : Env)
    (hf : env.sessionFile = none) (hc : env.checkLogin = Ext.ok false) :
    Effect.checkLogin.isCatalog = false ∧
    (∀ q l, search_tracks env q l = (Outcome.err notAuthMsg, [Effect.checkLogin])) ∧
    (∀ q l, search_albums env q l = (Outcome.err notAuthMsg, [Effect.checkLogin])) ∧
    (∀ q l, search_artists env q l = (Outcome.err notAuthMsg, [Effect.checkLogin])) ∧
    (∀ q l, search_playlists env q l = (Outcome.err notAuthMsg, [Effect.checkLogin])) ∧
    (∀ l, get_favorite_tracks env l = (Outcome.err notAuthMsg, [Effect.checkLogin])) ∧
    (∀ tid, add_track_to_favorites env tid = (Outcome.err notAuthMsg, [Effect.checkLogin])) ∧
    (∀ l, get_user_playlists env l = (Outcome.err notAuthMsg, [Effect.checkLogin])) ∧
    (∀ pid l, get_playlist_tracks env pid l = (Outcome.err notAuthMsg, [Effect.checkLogin])) ∧
    (∀ n d, create_playlist env n d = (Outcome.err notAuthMsg, [Effect.checkLogin])) ∧
    (∀ pid tids, add_tracks_to_playlist env pid tids =
      (Outcome.err notAuthMsg, [Effect.checkLogin])) ∧
    (∀ pid tids idx, remove_tracks_from_playlist env pid tids idx =
      (Outcome.err notAuthMsg, [Effect.checkLogin])) ∧
    (∀ pid n d, update_playlist env pid n d = (Outcome.err notAuthMsg, [Effect.checkLogin])) ∧
    (∀ pid, delete_playlist env pid = (Outcome.err notAuthMsg, [Effect.checkLogin])) ∧
    (∀ aid, get_album_tracks env aid = (Outcome.err notAuthMsg, [Effect.checkLogin])) ∧
    (∀ tid l, get_track_radio env tid l = (Outcome.err notAuthMsg, [Effect.checkLogin])) ∧
    (∀ aid l, get_artist_radio env aid l = (Outcome.err notAuthMsg, [Effect.checkLogin])) ∧
    (∀ aid, get_artist env aid = (Outcome.err notAuthMsg, [Effect.checkLogin])) ∧
    (∀ aid l, get_artist_albums env aid l = (Outcome.err notAuthMsg, [Effect.checkLogin])) ∧
    (∀ aid l, get_artist_top_tracks env aid l =
      (Outcome.err notAuthMsg, [Effect.checkLogin])) ∧
    (∀ aid l, get_similar_artists env aid l = (Outcome.err notAuthMsg, [Effect.checkLogin])) ∧
    (∀ l, get_favorite_albums env l = (Outcome.err notAuthMsg, [Effect.checkLogin])) ∧
    (∀ l, get_favorite_artists env l = (Outcome.err notAuthMsg, [Effect.checkLogin])) ∧
    (∀ tid, remove_track_from_favorites env tid =
      (Outcome.err notAuthMsg, [Effect.checkLogin])) ∧
    (∀ aid, remove_album_from_favorites env aid =
      (Outcome.err notAuthMsg, [Effect.checkLogin])) ∧
    (∀ aid, get_album env aid = (Outcome.err notAuthMsg, [Effect.checkLogin])) ∧
    (∀ aid l, get_similar_albums env aid l = (Outcome.err notAuthMsg, [Effect.checkLogin])) := by
  refine ⟨rfl, ?_, ?_, ?_, ?_, ?_, ?_, ?_, ?_, ?_, ?_, ?_, ?_, ?_,
    ?_, ?_, ?_, ?_, ?_, ?_, ?_, ?_, ?_, ?_, ?_, ?_, ?_⟩
  all_goals intros
  all_goals exact withAuth_eq_of_fresh _ hf hc

/-- C2 witness for the amended statement, at the fresh environment. -/
theorem c2_fresh_env_witness :
    envFresh.sessionFile = none ∧
    search_playlists envFresh "jazz" 10 = (Outcome.err notAuthMsg, [Effect.checkLogin]) :=
  ⟨rfl, (c2_fresh_env envFresh rfl rfl).2.2.2.2.1 "jazz" 10⟩

/-- C3: saving a credential bundle (the five persisted fields) and loading it
back from the session file reproduces every field exactly; in particular each
of the five `data[key]["data"]` accesses yields the saved value. -/
theorem c3_bundle_roundtrip (b : CredentialBundle) :
    loadBundle (encodeBundle b) = some b ∧
    getDataField (encodeBundle b) "token_type" = some (Json.str b.token_type) ∧
    getDataField (encodeBundle b) "session_id" = some (Json.str b.session_id) ∧
    getDataField (encodeBundle b) "access_token" = some (Json.str b.access_token) ∧
    getDataField (encodeBundle b) "refresh_token" = some (Json.str b.refresh_token) ∧
    getDataField (encodeBundle b) "is_pkce" = some (Json.bool b.is_pkce) :=
  ⟨rfl, rfl, rfl, rfl, rfl, rfl⟩

/-- C7: when reading the persisted session fails (unparseable file, missing
field, or an exception from the OAuth load), or when the loaded credentials
fail the validity check (including the check itself raising), the session
file is deleted during that same `ensure_authenticated` call and the check
reports False instead of raising. -/
theorem c7_invalid_session_cleanup (env : Env) :
    (env.sessionFile = some none →
       ensure_authenticated env = (Ext.ok false, [Effect.fileRead, Effect.fileDelete])) ∧
    (∀ d, env.sessionFile = some (some d) →
       (getDataField d "token_type" = none ∨ getDataField d "access_token" = none ∨
        getDataField d "refresh_token" = none) →
       ensure_authenticated env = (Ext.ok false, [Effect.fileRead, Effect.fileDelete])) ∧
    (∀ d tt atk rtk m, env.sessionFile = some (some d) →
       getDataField d "token_type" = some tt →
       getDataField d "access_token" = some atk →
       getDataField d "refresh_token" = some rtk →
       env.loadOauth tt atk rtk = Ext.exn m →
       ensure_authenticated env =
         (Ext.ok false, [Effect.fileRead, Effect.loadOauthSession, Effect.fileDelete])) ∧
    (∀ d tt atk rtk m, env.sessionFile = some (some d) →
       getDataField d "token_type" = some tt →
       getDataField d "access_token" = some atk →
       getDataField d "refresh_token" = some rtk →
       env.loadOauth tt atk rtk = Ext.ok true →
       env.checkLogin = Ext.exn m →
       ensure_authenticated env =
         (Ext.ok false,
          [Effect.fileRead, Effect.loadOauthSession, Effect.checkLogin, Effect.fileDelete])) ∧
    (∀ d tt atk rtk, env.sessionFile = some (some d) →
       getDataField d "token_type" = some tt →
       getDataField d "access_token" = some atk →
       getDataField d "refresh_token" = some rtk →
       env.loadOauth tt atk rtk = Ext.ok true →
       env.checkLogin = Ext.ok false →
       ensure_authenticated env =
         (Ext.ok false,
          [Effect.fileRead, Effect.loadOauthSession, Effect.checkLogin, Effect.fileDelete])) := by
  refine ⟨?_, ?_, ?_, ?_, ?_⟩
  · intro hS
    simp only [ensure_authenticated, hS]
  · intro d hS hmiss
    rcases h1 : getDataField d "token_type" with _ | tt
    · simp only [ensure_authenticated, hS, h1]
    · rcases h2 : getDataField d "access_token" with _ | atk
      · simp only [ensure_authenticated, hS, h1, h2]
      · rcases h3 : getDataField d "refresh_token" with _ | rtk
        · simp only [ensure_authenticated, hS, h1, h2, h3]
        · rw [h1, h2, h3] at hmiss
          simp at hmiss
  · intro d tt atk rtk m hS h1 h2 h3 hl
    simp only [ensure_authenticated, hS, h1, h2, h3, hl]
  · intro d tt atk rtk m hS h1 h2 h3 hl hc
    simp only [ensure_authenticated, hS, h1, h2, h3, hl, hc]
  · intro d tt atk rtk hS h1 h2 h3 hl hc
    simp only [ensure_authenticated, hS, h1, h2, h3, hl, hc]

/-- C7 witness: an unparseable file and a stale session both get deleted, and
both report invalid instead of raising. -/
theorem c7_invalid_session_cleanup_witness :
    envBadFile.sessionFile = some none ∧
    ensure_authenticated envBadFile = (Ext.ok false, [Effect.fileRead, Effect.fileDelete]) ∧
    ensure_authenticated envStale =
      (Ext.ok false,
       [Effect.fileRead, Effect.loadOauthSession, Effect.checkLogin, Effect.fileDelete]) := by
  refine ⟨rfl, ?_, ?_⟩
  · exact (c7_invalid_session_cleanup envBadFile).1 rfl
  · exact (c7_invalid_session_cleanup envStale).2.2.2.2 (encodeBundle sampleBundle)
      (Json.str "Bearer") (Json.str "acc-1") (Json.str "ref-1") rfl rfl rfl rfl rfl rfl

/-- C8: the projections substitute the documented defaults for missing
optional upstream fields: an absent artist/album reference becomes the fixed
placeholder string, and absent numeric attributes (track count, duration)
become zero. -/
theorem c8_projection_defaults :
    (∀ t : RTrack, t.artist = none → (projTrack t).artist = "Unknown Artist") ∧
    (∀ t : RTrack, t.album = none → (projTrack t).album = "Unknown Album") ∧
    (∀ a : RAlbum, a.artist = none →
       (projAlbum "Unknown Artist" a).artist = "Unknown Artist") ∧
    (∀ fb, ∀ a : RAlbum, a.num_tracks = none → (projAlbum fb a).num_tracks = 0) ∧
    (∀ fb, ∀ a : RAlbum, a.duration = none → (projAlbum fb a).duration_seconds = 0) := by
  refine ⟨?_, ?_, ?_, ?_, ?_⟩
  · intro t ht
    simp [projTrack, ht]
  · intro t ht
    simp [projTrack, ht]
  · intro a ha
    simp [projAlbum, ha]
  · intro fb a ha
    simp [projAlbum, ha]
  · intro fb a ha
    simp [projAlbum, ha]

/-- C8 witness at a track and an album with every optional field absent. -/
theorem c8_projection_defaults_witness :
    bareTrack.artist = none ∧
    (projTrack bareTrack).artist = "Unknown Artist" ∧
    (projTrack bareTrack).album = "Unknown Album" ∧
    (projAlbum "Unknown Artist" bareAlbum).artist = "Unknown Artist" ∧
    (projAlbum "Unknown Artist" bareAlbum).num_tracks = 0 ∧
    (projAlbum "Unknown Artist" bareAlbum).duration_seconds = 0 := by
  refine ⟨rfl, ?_, ?_, ?_, ?_, ?_⟩
  · exact c8_projection_defaults.1 bareTrack rfl
  · exact c8_projection_defaults.2.1 bareTrack rfl
  · exact c8_projection_defaults.2.2.1 bareAlbum rfl
  · exact c8_projection_defaults.2.2.2.1 "Unknown Artist" bareAlbum rfl
  · exact c8_projection_defaults.2.2.2.2 "Unknown Artist" bareAlbum rfl

/-- C5: with a valid session, calling `remove_tracks_from_playlist` with both
id and index lists populated, or with neither, raises the corresponding
Bad-Request ToolError before any remote call: the trace stops at the
authentication trace and contains no playlist fetch or removal call. -/
theorem c5_remove_guards (env : Env) (pid : String)
    (tids : Option (List String)) (idx : Option (List Int))
    (hauth : (ensure_authenticated env).1 = Ext.ok true)
    (hbad : optListTruthy tids = optListTruthy idx) :
    (remove_tracks_from_playlist env pid tids idx).1 =
      Outcome.err (if optListTruthy tids then "Provide either track_ids or indices, not both"
                   else "Must provide either track_ids or indices to remove") ∧
    (remove_tracks_from_playlist env pid tids idx).2 = (ensure_authenticated env).2 ∧
    (∀ e ∈ (remove_tracks_from_playlist env pid tids idx).2, e.isCatalog = false) := by
  have hmain : remove_tracks_from_playlist env pid tids idx =
      (Outcome.err (if optListTruthy tids then "Provide either track_ids or indices, not both"
                    else "Must provide either track_ids or indices to remove"),
       (ensure_authenticated env).2) := by
    unfold remove_tracks_from_playlist
    cases hT : optListTruthy tids
    · have hI : optListTruthy idx = false := by rw [← hbad, hT]
      rw [hI, withAuth_eq_true env _ hauth]
      simp
    · have hI : optListTruthy idx = true := by rw [← hbad, hT]
      rw [hI, withAuth_eq_true env _ hauth]
      simp
  refine ⟨by rw [hmain], by rw [hmain], ?_⟩
  intro e he
  rw [hmain] at he
  exact auth_trace_noCatalog env e he

/-- C5 witness for both bad cases, in an authenticated environment. -/
theorem c5_remove_guards_witness :
    (remove_tracks_from_playlist envAuthed "pl-1" none none).1 =
      Outcome.err "Must provide either track_ids or indices to remove" ∧
    (remove_tracks_from_playlist envAuthed "pl-1" (some ["1"]) (some [0])).1 =
      Outcome.err "Provide either track_ids or indices, not both" := by
  constructor
  · exact (c5_remove_guards envAuthed "pl-1" none none rfl rfl).1
  · exact (c5_remove_guards envAuthed "pl-1" (some ["1"]) (some [0]) rfl rfl).1

/-- Two strings with different first characters remain different after
appending arbitrary suffixes. -/
theorem append_ne_append (c1 c2 : Char) (p q a b : String)
    (hp : p.data.head? = some c1) (hq : q.data.head? = some c2) (hc : c1 ≠ c2) :
    p ++ a ≠ q ++ b := by
  intro hEq
  have hd2 : p.data ++ a.data = q.data ++ b.data := congrArg String.data hEq
  rcases hpcase : p.data with _ | ⟨x, xs⟩
  · rw [hpcase] at hp
    simp at hp
  · rcases hqcase : q.data with _ | ⟨y, ys⟩
    · rw [hqcase] at hq
      simp at hq
    · rw [hpcase] at hp
      rw [hqcase] at hq
      rw [hpcase, hqcase] at hd2
      simp only [List.cons_append, List.cons.injEq, List.head?_cons, Option.some.injEq] at hp hq hd2
      exact hc (by rw [← hp, ← hq, hd2.1])

/-- C6: with a valid session, a non-numeric `track_id` makes
`add_track_to_favorites` fail with the Invalid-Identifier ToolError naming
the bad id - not with the Operation-Failed catch-all - and no remote
favorites-add call is made. -/
theorem c6_invalid_track_id (env : Env) (tid : String)
    (hauth : (ensure_authenticated env).1 = Ext.ok true)
    (hbad : pyParseInt tid = none) :
    (add_track_to_favorites env tid).1 = Outcome.err ("Invalid track ID format: " ++ tid) ∧
    (∀ m, (add_track_to_favorites env tid).1 ≠
       Outcome.err ("Failed to add track to favorites: " ++ m)) ∧
    (∀ e ∈ (add_track_to_favorites env tid).2, ∀ n, e ≠ Effect.favAddTrack n) := by
  have hcore : addTrackToFavoritesCore env tid =
      (Outcome.err ("Invalid track ID format: " ++ tid), ([] : Trace)) := by
    unfold addTrackToFavoritesCore
    rw [hbad]
  have hmain : add_track_to_favorites env tid =
      (Outcome.err ("Invalid track ID format: " ++ tid), (ensure_authenticated env).2) := by
    unfold add_track_to_favorites
    rw [withAuth_eq_true env _ hauth, hcore]
    simp
  refine ⟨by rw [hmain], ?_, ?_⟩
  · intro m hEq
    rw [hmain] at hEq
    simp only [Outcome.err.injEq] at hEq
    exact append_ne_append 'I' 'F' "Invalid track ID format: "
      "Failed to add track to favorites: " tid m rfl rfl (by decide) hEq
  · intro e he n hEqe
    rw [hmain] at he
    have hcat := auth_trace_noCatalog env e he
    rw [hEqe] at hcat
    simp [Effect.isCatalog] at hcat

/-- C6 witness at the non-numeric id "abc". -/
theorem c6_invalid_track_id_witness :
    pyParseInt "abc" = none ∧
    (add_track_to_favorites envAuthed "abc").1 =
      Outcome.err ("Invalid track ID format: " ++ "abc") := by
  refine ⟨by decide, ?_⟩
  exact (c6_invalid_track_id envAuthed "abc" rfl (by decide)).1

/-- Every limit sent by the `search_tracks` body is the one it was given. -/
theorem searchTracksCore_limits (env : Env) (q : String) (lim : Int) :
    ∀ x ∈ sentLimits (searchTracksCore env q lim).2, x = lim := by
  intro x hx
  unfold searchTracksCore at hx
  rcases h : env.searchTracksR q lim with rts | m <;> rw [h] at hx <;>
    simpa [sentLimits, Effect.limitArg] using hx

/-- Every limit sent by the `search_albums` body is the one it was given. -/
theorem searchAlbumsCore_limits (env : Env) (q : String) (lim : Int) :
    ∀ x ∈ sentLimits (searchAlbumsCore env q lim).2, x = lim := by
  intro x hx
  unfold searchAlbumsCore at hx
  rcases h : env.searchAlbumsR q lim with rals | m <;> rw [h] at hx <;>
    simpa [sentLimits, Effect.limitArg] using hx

/-- Every limit sent by the `search_artists` body is the one it was given. -/
theorem searchArtistsCore_limits (env : Env) (q : String) (lim : Int) :
    ∀ x ∈ sentLimits (searchArtistsCore env q lim).2, x = lim := by
  intro x hx
  unfold searchArtistsCore at hx
  rcases h : env.searchArtistsR q lim with ras | m <;> rw [h] at hx <;>
    simpa [sentLimits, Effect.limitArg] using hx

/-- Every limit sent by the `search_playlists` body is the one it was given. -/
theorem searchPlaylistsCore_limits (env : Env) (q : String) (lim : Int) :
    ∀ x ∈ sentLimits (searchPlaylistsCore env q lim).2, x = lim := by
  intro x hx
  unfold searchPlaylistsCore at hx
  rcases h : env.searchPlaylistsR q lim with rpls | m <;> rw [h] at hx <;>
    simpa [sentLimits, Effect.limitArg] using hx

/-- Every limit sent by the `get_track_radio` body is the one it was given. -/
theorem getTrackRadioCore_limits (env : Env) (tid : String) (lim : Int) :
    ∀ x ∈ sentLimits (getTrackRadioCore env tid lim).2, x = lim := by
  intro x hx
  unfold getTrackRadioCore at hx
  rcases h : env.trackR tid with topt | m <;> rw [h] at hx
  · rcases topt with _ | t <;> dsimp only at hx
    · simp [sentLimits, Effect.limitArg] at hx
    · rcases h2 : env.trackRadioR t.id lim with rts | m2 <;> rw [h2] at hx <;>
        simpa [sentLimits, Effect.limitArg] using hx
  · simp [sentLimits, Effect.limitArg] at hx

/-- Every limit sent by the `get_artist_radio` body is the one it was given. -/
theorem getArtistRadioCore_limits (env : Env) (aid : String) (lim : Int) :
    ∀ x ∈ sentLimits (getArtistRadioCore env aid lim).2, x = lim := by
  intro x hx
  unfold getArtistRadioCore at hx
  rcases h : env.artistR aid with aopt | m <;> rw [h] at hx
  · rcases aopt with _ | a <;> dsimp only at hx
    · simp [sentLimits, Effect.limitArg] at hx
    · rcases h2 : env.artistRadioR a.id lim with rts | m2 <;> rw [h2] at hx <;>
        simpa [sentLimits, Effect.limitArg] using hx
  · simp [sentLimits, Effect.limitArg] at hx

/-- Every limit sent by the `get_artist_albums` body is the one it was given. -/
theorem getArtistAlbumsCore_limits (env : Env) (aid : String) (lim : Int) :
    ∀ x ∈ sentLimits (getArtistAlbumsCore env aid lim).2, x = lim := by
  intro x hx
  unfold getArtistAlbumsCore at hx
  rcases h : env.artistR aid with aopt | m <;> rw [h] at hx
  · rcases aopt with _ | a <;> dsimp only at hx
    · simp [sentLimits, Effect.limitArg] at hx
    · rcases h2 : env.artistAlbumsR a.id lim with als | m2 <;> rw [h2] at hx <;>
        simpa [sentLimits, Effect.limitArg] using hx
  · simp [sentLimits, Effect.limitArg] at hx

/-- Every limit sent by the `get_artist_top_tracks` body is the one it was
given. -/
theorem getArtistTopTracksCore_limits (env : Env) (aid : String) (lim : Int) :
    ∀ x ∈ sentLimits (getArtistTopTracksCore env aid lim).2, x = lim := by
  intro x hx
  unfold getArtistTopTracksCore at hx
  rcases h : env.artistR aid with aopt | m <;> rw [h] at hx
  · rcases aopt with _ | a <;> dsimp only at hx
    · simp [sentLimits, Effect.limitArg] at hx
    · rcases h2 : env.artistTopTracksR a.id lim with ts | m2 <;> rw [h2] at hx <;>
        simpa [sentLimits, Effect.limitArg] using hx
  · simp [sentLimits, Effect.limitArg] at hx

/-- A Python slice with a nonnegative bound returns at most that many
elements. -/
theorem pyTake_length_le {α : Type} (k : Int) (hk : 0 ≤ k) (xs : List α) :
    ((pyTake k xs).length : Int) ≤ k := by
  unfold pyTake
  rw [if_pos hk, List.length_take]
  omega

/-- The clamp expression is nonnegative as soon as the cap is positive. -/
theorem clamp_nonneg (l cap : Int) (hcap : 1 ≤ cap) : 0 ≤ min (max 1 l) cap := by
  have h1 : (1 : Int) ≤ min (max 1 l) cap := le_min (le_max_left 1 l) hcap
  omega

/-- A successful `get_similar_artists` body returns at most `lim` artists. -/
theorem getSimilarArtistsCore_len (env : Env) (aid : String) (lim : Int) (hlim : 0 ≤ lim)
    (r : ArtistList) (h : (getSimilarArtistsCore env aid lim).1 = Outcome.ok r) :
    (r.artists.length : Int) ≤ lim := by
  unfold getSimilarArtistsCore at h
  rcases hA : env.artistR aid with aopt | m <;> rw [hA] at h
  · rcases aopt with _ | a <;> dsimp only at h
    · simp at h
    · rcases hS : env.artistSimilarR a.id with sims | m2 <;> rw [hS] at h
      · simp only [Outcome.ok.injEq] at h
        subst h
        simp only [List.length_map]
        cases hE : sims.isEmpty
        · simpa using pyTake_length_le lim hlim sims
        · simpa using hlim
      · simp at h
  · simp at h

/-- A successful `get_similar_albums` body returns at most `lim` albums. -/
theorem getSimilarAlbumsCore_len (env : Env) (aid : String) (lim : Int) (hlim : 0 ≤ lim)
    (r : AlbumList) (h : (getSimilarAlbumsCore env aid lim).1 = Outcome.ok r) :
    (r.albums.length : Int) ≤ lim := by
  unfold getSimilarAlbumsCore at h
  rcases hA : env.albumR aid with aopt | m <;> rw [hA] at h
  · rcases aopt with _ | al <;> dsimp only at h
    · simp at h
    · rcases hS : env.albumSimilarR al.id with sims | m2 <;> rw [hS] at h
      · simp only [Outcome.ok.injEq] at h
        subst h
        simp only [List.length_map]
        cases hE : sims.isEmpty
        · simpa using pyTake_length_le lim hlim sims
        · simpa using hlim
      · simp at h
  · simp at h

/-- C4: each of the ten limit-clamping operations uses exactly
`min(max(1, limit), cap)` as its effective limit, with cap 50 for the four
searches, the artist discography/top-tracks, and the two similarity lookups,
and cap 100 for the two radio operations. The eight that pass the limit to
the remote client only ever send the clamped value; the two similarity
lookups apply the clamped value as a slice bound, so a successful result has
at most that many entities. In particular limit values 0 and 1000 both clamp
into [1, cap]. -/
theorem c4_limit_clamping :
    (∀ env q l : _, ∀ x ∈ sentLimits (search_tracks env q l).2, x = min (max 1 l) 50) ∧
    (∀ env q l : _, ∀ x ∈ sentLimits (search_albums env q l).2, x = min (max 1 l) 50) ∧
    (∀ env q l : _, ∀ x ∈ sentLimits (search_artists env q l).2, x = min (max 1 l) 50) ∧
    (∀ env q l : _, ∀ x ∈ sentLimits (search_playlists env q l).2, x = min (max 1 l) 50) ∧
    (∀ env tid l : _, ∀ x ∈ sentLimits (get_track_radio env tid l).2, x = min (max 1 l) 100) ∧
    (∀ env aid l : _, ∀ x ∈ sentLimits (get_artist_radio env aid l).2, x = min (max 1 l) 100) ∧
    (∀ env aid l : _, ∀ x ∈ sentLimits (get_artist_albums env aid l).2, x = min (max 1 l) 50) ∧
    (∀ env aid l : _,
       ∀ x ∈ sentLimits (get_artist_top_tracks env aid l).2, x = min (max 1 l) 50) ∧
    (∀ env aid l r, (get_similar_artists env aid l).1 = Outcome.ok r →
       (r.artists.length : Int) ≤ min (max 1 l) 50) ∧
    (∀ env aid l r, (get_similar_albums env aid l).1 = Outcome.ok r →
       (r.albums.length : Int) ≤ min (max 1 l) 50) ∧
    (∀ l : Int, 1 ≤ min (max 1 l) 50 ∧ min (max 1 l) 50 ≤ 50) ∧
    (∀ l : Int, 1 ≤ min (max 1 l) 100 ∧ min (max 1 l) 100 ≤ 100) ∧
    (min (max 1 (0 : Int)) 50 = 1 ∧ min (max 1 (1000 : Int)) 50 = 50) ∧
    (min (max 1 (0 : Int)) 100 = 1 ∧ min (max 1 (1000 : Int)) 100 = 100) := by
  refine ⟨?_, ?_, ?_, ?_, ?_, ?_, ?_, ?_, ?_, ?_, ?_, ?_, ?_, ?_⟩
  · exact fun env q l => withAuth_sentLimits env _ (searchTracksCore_limits env q _)
  · exact fun env q l => withAuth_sentLimits env _ (searchAlbumsCore_limits env q _)
  · exact fun env q l => withAuth_sentLimits env _ (searchArtistsCore_limits env q _)
  · exact fun env q l => withAuth_sentLimits env _ (searchPlaylistsCore_limits env q _)
  · exact fun env tid l => withAuth_sentLimits env _ (getTrackRadioCore_limits env tid _)
  · exact fun env aid l => withAuth_sentLimits env _ (getArtistRadioCore_limits env aid _)
  · exact fun env aid l => withAuth_sentLimits env _ (getArtistAlbumsCore_limits env aid _)
  · exact fun env aid l => withAuth_sentLimits env _ (getArtistTopTracksCore_limits env aid _)
  · exact fun env aid l r h =>
      getSimilarArtistsCore_len env aid _ (clamp_nonneg l 50 (by norm_num)) r
        (withAuth_fst_ok h)
  · exact fun env aid l r h =>
      getSimilarAlbumsCore_len env aid _ (clamp_nonneg l 50 (by norm_num)) r
        (withAuth_fst_ok h)
  · intro l
    exact ⟨le_min (le_max_left 1 l) (by norm_num), min_le_right _ _⟩
  · intro l
    exact ⟨le_min (le_max_left 1 l) (by norm_num), min_le_right _ _⟩
  · exact ⟨by norm_num, by norm_num⟩
  · exact ⟨by norm_num, by norm_num⟩

/-- A concrete similar-artists result used by the C4 witness. -/
def c4SimilarResult : ArtistList :=
  { status := "success", query := none, count := 1, artists := [projArtist sampleArtist] }

/-- C4 witness: at limit 1000 the search sends exactly 50, and a concrete
similar-artists call at limit 3 returns at most 3 artists. -/
theorem c4_limit_clamping_witness :
    (50 : Int) = min (max 1 (1000 : Int)) 50 ∧
    (c4SimilarResult.artists.length : Int) ≤ min (max 1 (3 : Int)) 50 := by
  constructor
  · refine c4_limit_clamping.1 envAuthed "q" 1000 50 ?_
    have h : sentLimits (search_tracks envAuthed "q" 1000).2 = [50] := rfl
    rw [h]
    simp
  · exact c4_limit_clamping.2.2.2.2.2.2.2.2.1 envAuthed "7" 3 c4SimilarResult rfl

/-- C9: for every successful result of a list-returning operation, the
`count` field equals the length of the accompanying entity list. -/
theorem c9_count_invariant :
    (∀ env q l r, (search_tracks env q l).1 = Outcome.ok r →
       r.count = (r.tracks.length : Int)) ∧
    (∀ env q l r, (search_albums env q l).1 = Outcome.ok r →
       r.count = (r.albums.length : Int)) ∧
    (∀ env q l r, (search_artists env q l).1 = Outcome.ok r →
       r.count = (r.artists.length : Int)) ∧
    (∀ env q l r, (search_playlists env q l).1 = Outcome.ok r →
       r.count = (r.playlists.length : Int)) ∧
    (∀ env l r, (get_favorite_tracks env l).1 = Outcome.ok r →
       r.count = (r.tracks.length : Int)) ∧
    (∀ env l r, (get_favorite_albums env l).1 = Outcome.ok r →
       r.count = (r.albums.length : Int)) ∧
    (∀ env l r, (get_favorite_artists env l).1 = Outcome.ok r →
       r.count = (r.artists.length : Int)) ∧
    (∀ env l r, (get_user_playlists env l).1 = Outcome.ok r →
       r.count = (r.playlists.length : Int)) ∧
    (∀ env pid l r, (get_playlist_tracks env pid l).1 = Outcome.ok r →
       r.count = (r.tracks.length : Int)) ∧
    (∀ env aid r, (get_album_tracks env aid).1 = Outcome.ok r →
       r.count = (r.tracks.length : Int)) ∧
    (∀ env tid l r, (get_track_radio env tid l).1 = Outcome.ok r →
       r.count = (r.tracks.length : Int)) ∧
    (∀ env aid l r, (get_artist_radio env aid l).1 = Outcome.ok r →
       r.count = (r.tracks.length : Int)) ∧
    (∀ env aid l r, (get_artist_albums env aid l).1 = Outcome.ok r →
       r.count = (r.albums.length : Int)) ∧
    (∀ env aid l r, (get_artist_top_tracks env aid l).1 = Outcome.ok r →
       r.count = (r.tracks.length : Int)) ∧
    (∀ env aid l r, (get_similar_artists env aid l).1 = Outcome.ok r →
       r.count = (r.artists.length : Int)) ∧
    (∀ env aid l r, (get_similar_albums env aid l).1 = Outcome.ok r →
       r.count = (r.albums.length : Int)) := by
  refine ⟨?_, ?_, ?_, ?_, ?_, ?_, ?_, ?_, ?_, ?_, ?_, ?_, ?_, ?_, ?_, ?_⟩
  · intro env q l r h
    have h2 := withAuth_fst_ok h
    unfold searchTracksCore at h2
    rcases hs : env.searchTracksR q (min (max 1 l) 50) with rts | m <;> rw [hs] at h2
    · simp only [Outcome.ok.injEq] at h2
      subst h2
      rfl
    · simp at h2
  · intro env q l r h
    have h2 := withAuth_fst_ok h
    unfold searchAlbumsCore at h2
    rcases hs : env.searchAlbumsR q (min (max 1 l) 50) with rals | m <;> rw [hs] at h2
    · simp only [Outcome.ok.injEq] at h2
      subst h2
      rfl
    · simp at h2
  · intro env q l r h
    have h2 := withAuth_fst_ok h
    unfold searchArtistsCore at h2
    rcases hs : env.searchArtistsR q (min (max 1 l) 50) with ras | m <;> rw [hs] at h2
    · simp only [Outcome.ok.injEq] at h2
      subst h2
      rfl
    · simp at h2
  · intro env q l r h
    have h2 := withAuth_fst_ok h
    unfold searchPlaylistsCore at h2
    rcases hs : env.searchPlaylistsR q (min (max 1 l) 50) with rpls | m <;> rw [hs] at h2
    · simp only [Outcome.ok.injEq] at h2
      subst h2
      rfl
    · simp at h2
  · intro env l r h
    have h2 := withAuth_fst_ok h
    unfold getFavoriteTracksCore at h2
    rcases hs : env.favoriteTracksR l with rts | m <;> rw [hs] at h2
    · simp only [Outcome.ok.injEq] at h2
      subst h2
      rfl
    · simp at h2
  · intro env l r h
    have h2 := withAuth_fst_ok h
    unfold getFavoriteAlbumsCore at h2
    rcases hs : env.favoriteAlbumsR l with rals | m <;> rw [hs] at h2
    · simp only [Outcome.ok.injEq] at h2
      subst h2
      rfl
    · simp at h2
  · intro env l r h
    have h2 := withAuth_fst_ok h
    unfold getFavoriteArtistsCore at h2
    rcases hs : env.favoriteArtistsR l with ras | m <;> rw [hs] at h2
    · simp only [Outcome.ok.injEq] at h2
      subst h2
      rfl
    · simp at h2
  · intro env l r h
    have h2 := withAuth_fst_ok h
    unfold getUserPlaylistsCore at h2
    rcases hs : env.userPlaylistsR with pls | m <;> rw [hs] at h2
    · simp only [Outcome.ok.injEq] at h2
      subst h2
      rfl
    · simp at h2
  · intro env pid l r h
    have h2 := withAuth_fst_ok h
    unfold getPlaylistTracksCore at h2
    rcases hs : env.playlistR pid with popt | m <;> rw [hs] at h2
    · rcases popt with _ | pl <;> dsimp only at h2
      · simp at h2
      · rcases ht : env.playlistTracksR pid with ts | m2 <;> rw [ht] at h2
        · simp only [Outcome.ok.injEq] at h2
          subst h2
          rfl
        · simp at h2
    · simp at h2
  · intro env aid r h
    have h2 := withAuth_fst_ok h
    unfold getAlbumTracksCore at h2
    rcases hs : env.albumR aid with aopt | m <;> rw [hs] at h2
    · rcases aopt with _ | al <;> dsimp only at h2
      · simp at h2
      · rcases ht : env.albumTracksR aid with ts | m2 <;> rw [ht] at h2
        · simp only [Outcome.ok.injEq] at h2
          subst h2
          rfl
        · simp at h2
    · simp at h2
  · intro env tid l r h
    have h2 := withAuth_fst_ok h
    unfold getTrackRadioCore at h2
    rcases hs : env.trackR tid with topt | m <;> rw [hs] at h2
    · rcases topt with _ | t <;> dsimp only at h2
      · simp at h2
      · rcases ht : env.trackRadioR t.id (min (max 1 l) 100) with rts | m2 <;> rw [ht] at h2
        · simp only [Outcome.ok.injEq] at h2
          subst h2
          rfl
        · simp at h2
    · simp at h2
  · intro env aid l r h
    have h2 := withAuth_fst_ok h
    unfold getArtistRadioCore at h2
    rcases hs : env.artistR aid with aopt | m <;> rw [hs] at h2
    · rcases aopt with _ | a <;> dsimp only at h2
      · simp at h2
      · rcases ht : env.artistRadioR a.id (min (max 1 l) 100) with rts | m2 <;> rw [ht] at h2
        · simp only [Outcome.ok.injEq] at h2
          subst h2
          rfl
        · simp at h2
    · simp at h2
  · intro env aid l r h
    have h2 := withAuth_fst_ok h
    unfold getArtistAlbumsCore at h2
    rcases hs : env.artistR aid with aopt | m <;> rw [hs] at h2
    · rcases aopt with _ | a <;> dsimp only at h2
      · simp at h2
      · rcases ht : env.artistAlbumsR a.id (min (max 1 l) 50) with als | m2 <;> rw [ht] at h2
        · simp only [Outcome.ok.injEq] at h2
          subst h2
          rfl
        · simp at h2
    · simp at h2
  · intro env aid l r h
    have h2 := withAuth_fst_ok h
    unfold getArtistTopTracksCore at h2
    rcases hs : env.artistR aid with aopt | m <;> rw [hs] at h2
    · rcases aopt with _ | a <;> dsimp only at h2
      · simp at h2
      · rcases ht : env.artistTopTracksR a.id (min (max 1 l) 50) with ts | m2 <;> rw [ht] at h2
        · simp only [Outcome.ok.injEq] at h2
          subst h2
          rfl
        · simp at h2
    · simp at h2
  · intro env aid l r h
    have h2 := withAuth_fst_ok h
    unfold getSimilarArtistsCore at h2
    rcases hs : env.artistR aid with aopt | m <;> rw [hs] at h2
    · rcases aopt with _ | a <;> dsimp only at h2
      · simp at h2
      · rcases ht : env.artistSimilarR a.id with sims | m2 <;> rw [ht] at h2
        · simp only [Outcome.ok.injEq] at h2
          subst h2
          rfl
        · simp at h2
    · simp at h2
  · intro env aid l r h
    have h2 := withAuth_fst_ok h
    unfold getSimilarAlbumsCore at h2
    rcases hs : env.albumR aid with aopt | m <;> rw [hs] at h2
    · rcases aopt with _ | al <;> dsimp only at h2
      · simp at h2
      · rcases ht : env.albumSimilarR al.id with sims | m2 <;> rw [ht] at h2
        · simp only [Outcome.ok.injEq] at h2
          subst h2
          rfl
        · simp at h2
    · simp at h2

/-- A concrete search result used by the C9 witness. -/
def c9SampleResult : TrackList :=
  { status := "success", query := some "q", count := 1, tracks := [projTrack sampleTrack] }

/-- C9 witness at a concrete successful search. -/
theorem c9_count_invariant_witness :
    (search_tracks envAuthed "q" 5).1 = Outcome.ok c9SampleResult ∧
    c9SampleResult.count = (c9SampleResult.tracks.length : Int) := by
  refine ⟨rfl, ?_⟩
  exact c9_count_invariant.1 envAuthed "q" 5 c9SampleResult rfl

/-- C10: for `get_user_playlists` and `get_playlist_tracks`, a limit of 0 is
falsy in Python, so truncation is disabled and every entity the remote side
supplied is returned; any positive limit returns the prefix slice of the
remote list, hence at most that many entities in remote order. -/
theorem c10_zero_limit (env : Env) :
    (∀ pls, (ensure_authenticated env).1 = Ext.ok true →
       env.userPlaylistsR = Ext.ok pls →
       ((get_user_playlists env 0).1 =
          Outcome.ok { status := "success", query := none,
                       count := ((pls.map projPlaylistOwn).length : Int),
                       playlists := pls.map projPlaylistOwn } ∧
        ∀ l : Int, 0 < l →
          (get_user_playlists env l).1 =
            Outcome.ok { status := "success", query := none,
                         count := (((pyTake l pls).map projPlaylistOwn).length : Int),
                         playlists := (pyTake l pls).map projPlaylistOwn } ∧
          (((pyTake l pls).map projPlaylistOwn).length : Int) ≤ l)) ∧
    (∀ pid pl ts, (ensure_authenticated env).1 = Ext.ok true →
       env.playlistR pid = Ext.ok (some pl) →
       env.playlistTracksR pid = Ext.ok ts →
       ((get_playlist_tracks env pid 0).1 =
          Outcome.ok { status := "success", playlist_name := pl.name, playlist_id := pid,
                       count := ((ts.map projTrack).length : Int),
                       tracks := ts.map projTrack } ∧
        ∀ l : Int, 0 < l →
          (get_playlist_tracks env pid l).1 =
            Outcome.ok { status := "success", playlist_name := pl.name, playlist_id := pid,
                         count := (((pyTake l ts).map projTrack).length : Int),
                         tracks := (pyTake l ts).map projTrack } ∧
          (((pyTake l ts).map projTrack).length : Int) ≤ l)) := by
  constructor
  · intro pls hauth hP
    have hfst : ∀ li : Int,
        (get_user_playlists env li).1 = (getUserPlaylistsCore env li).1 := by
      intro li
      rw [show get_user_playlists env li = withAuth env (getUserPlaylistsCore env li) from rfl,
        withAuth_eq_true env _ hauth]
    constructor
    · rw [hfst 0]
      unfold getUserPlaylistsCore
      rw [hP]
      simp
    · intro l hl
      have hne : l ≠ 0 := by omega
      constructor
      · rw [hfst l]
        unfold getUserPlaylistsCore
        rw [hP]
        simp [hne]
      · simp only [List.length_map]
        exact pyTake_length_le l (by omega) pls
  · intro pid pl ts hauth hP hT
    have hfst : ∀ li : Int,
        (get_playlist_tracks env pid li).1 = (getPlaylistTracksCore env pid li).1 := by
      intro li
      rw [show get_playlist_tracks env pid li =
            withAuth env (getPlaylistTracksCore env pid li) from rfl,
        withAuth_eq_true env _ hauth]
    constructor
    · rw [hfst 0]
      unfold getPlaylistTracksCore
      rw [hP, hT]
      simp
    · intro l hl
      have hne : l ≠ 0 := by omega
      constructor
      · rw [hfst l]
        unfold getPlaylistTracksCore
        rw [hP, hT]
        simp [hne]
      · simp only [List.length_map]
        exact pyTake_length_le l (by omega) ts

/-- C10 witness: a zero limit returns the full remote list; limit 1 returns
its one-element prefix. -/
theorem c10_zero_limit_witness :
    (get_user_playlists envAuthed 0).1 =
      Outcome.ok { status := "success", query := none,
                   count := (([samplePlaylist].map projPlaylistOwn).length : Int),
                   playlists := [samplePlaylist].map projPlaylistOwn } ∧
    (get_playlist_tracks envAuthed "pl-1" 1).1 =
      Outcome.ok { status := "success", playlist_name := samplePlaylist.name,
                   playlist_id := "pl-1",
                   count := (((pyTake 1 [sampleTrack]).map projTrack).length : Int),
                   tracks := (pyTake 1 [sampleTrack]).map projTrack } := by
  constructor
  · exact ((c10_zero_limit envAuthed).1 [samplePlaylist] rfl rfl).1
  · exact (((c10_zero_limit envAuthed).2 "pl-1" samplePlaylist [sampleTrack]
      rfl rfl rfl).2 1 (by norm_num)).1

end TidalMCP
